/-
  Verification of the eko1985 stand-growth simulation engine.

  The repository carries two parallel stand implementations:
    * the "overlay" stand module `eko1985/stand.py` at the repository root
      (here: namespace `Root`), and
    * the packaged module `src/eko1985/stand.py` (here: namespace `Pkg`),
      which is the module actually imported as `eko1985.stand`.
  The site module `eko1985/site.py`, the species module
  `src/eko1985/species.py`, the shared utilities `src/eko1985/utils.py` and
  the base classes `src/eko1985/base.py` exist once each and are shared.

  Real (floating point) arithmetic is modelled by ℝ; `math.exp`, `math.log`
  and `math.sqrt` by `Real.exp`, `Real.log`, `Real.sqrt`.
-/
import Mathlib

noncomputable section

namespace Eko1985

/-! ## utils.py -/

/-- `qmd_cm` from src/eko1985/utils.py: quadratic mean diameter (cm) given
basal area (m²/ha) and stem count (/ha); 0 on non-positive input. -/
def qmd_cm (BA stems : ℝ) : ℝ :=
  if BA ≤ 0 ∨ stems ≤ 0 then 0
  else Real.sqrt (BA * 40000 / (Real.pi * stems))

/-! ## species.py: the safe logarithm -/

/-- The clamped argument fed to the logarithm by the safe `log` wrapper of
src/eko1985/species.py (non-positive inputs are replaced by `1e-9`;
the None/non-numeric fallbacks of the Python wrapper do not arise for
real-valued arguments). -/
def logArg (x : ℝ) : ℝ := if x ≤ 0 then 1e-9 else x

/-- The safe `log` wrapper from src/eko1985/species.py. -/
def log (x : ℝ) : ℝ := Real.log (logArg x)

/-- Python booleans used as numbers (True = 1.0, False = 0.0). -/
def pyBool (b : Bool) : ℝ := if b then 1 else 0

/-- Python `int(x)` (truncation toward zero) on a real value. -/
def pyInt (x : ℝ) : ℤ := if 0 ≤ x then ⌊x⌋ else ⌈x⌉

/-- The final fraction clamp shared by every species' `getMortality`:
`if crowding > 1: 1.0 elif crowding < 0: 0.0`. -/
def clampCrowding (c : ℝ) : ℝ := if 1 < c then 1 else if c < 0 then 0 else c

/-! ## enums.py and site.py (site.py exists once, in the overlay
directory; the packaged module imports it) -/

/-- `RegionSE` from src/eko1985/enums.py. -/
inductive RegionSE
  | NORRA
  | MELLERSTA
  | SODRA
deriving DecidableEq

/-- The `.value` of a `RegionSE` member. -/
def RegionSE.value : RegionSE → String
  | .NORRA => "North"
  | .MELLERSTA => "Central"
  | .SODRA => "South"

/-- The dynamically-typed `region` argument of `EkoStandSite.__init__`:
either a `RegionSE` member or an arbitrary string (besides `None`,
modelled by `Option`). -/
inductive RegionInput
  | enum : RegionSE → RegionInput
  | str : String → RegionInput

/-- The region-normalization block of `EkoStandSite.__init__`
(eko1985/site.py, lines 62-70): `RegionSE` members give their value,
the three English names pass through, the three Swedish names are mapped,
`None` defaults to `"South"`, and anything else is stored verbatim via
`str(region)`. -/
def regionNormalize : Option RegionInput → String
  | some (.enum r) => r.value
  | some (.str s) =>
      if s = "North" ∨ s = "Central" ∨ s = "South" then s
      else if s = "NORRA" then "North"
      else if s = "MELLERSTA" then "Central"
      else if s = "SÖDRA" then "South"
      else s
  | none => RegionSE.SODRA.value

/-- The `vegcode` switch of `EkoStandSite._set_fieldlayer_and_vegcode`
(a non-integer or unmapped vegetation code yields 0). -/
def vegcodeOf : Option ℤ → ℝ
  | some 1 => 4
  | some 2 => 2.5
  | some 3 => 2
  | some 4 => 3
  | some 5 => 2.5
  | some 6 => 2
  | some 7 => 3
  | some 8 => 2.5
  | some 9 => 1.5
  | some 10 => -3
  | some 11 => -3
  | some 12 => 1
  | some 13 => 0
  | some 14 => -0.5
  | some 15 => -3
  | some 16 => -5
  | some 17 => -0.5
  | some 18 => -1
  | _ => 0

/-- The field-layer flag pair `(Bilberry_or_Cowberry,
HerbsGrassesNoFieldLayer)` of `EkoStandSite._set_fieldlayer_and_vegcode`. -/
def fieldLayerFlags (veg : Option ℤ) (latitude : ℝ) : Bool × Bool :=
  if veg = some 13 ∨ veg = some 14 then (true, false)
  else if veg = some 1 ∨ veg = some 2 ∨ veg = some 3 ∨ veg = some 4 ∨
      veg = some 5 ∨ veg = some 6 ∨ veg = some 8 ∨ veg = some 9 ∨
      (veg = some 7 ∧ latitude < 60) then (false, true)
  else (false, false)

/-- Site state, `EkoStandSite` from eko1985/site.py. -/
structure EkoStandSite where
  latitude : ℝ
  altitude : ℝ
  region : String
  H100_Pine : ℝ
  H100_Spruce : ℝ
  fertilised : Bool
  thinned_5y : Bool
  thinned : Bool
  TAX77 : Bool
  Bilberry_or_Cowberry : Bool
  HerbsGrassesNoFieldLayer : Bool
  DrySoil : Bool
  WetSoil : Bool
  vegcode : ℝ

/-- Replace only the region of a site (used to compare the behaviour of
downstream formulas across region strings). -/
def EkoStandSite.withRegion (site : EkoStandSite) (r : String) : EkoStandSite :=
  { site with region := r }

/-- `EkoStandSite.__Leijon_Pine_to_Spruce`: the empirical cross-conversion,
which applies `math.log` (not the safe wrapper) to `H100_Pine * 10` and
hence raises a `ValueError` for a non-positive pine site index (the
out-of-range warning for indices outside 8-30 m is non-fatal and not
modelled). -/
def Leijon_Pine_to_Spruce (H100_Pine : ℝ) : Except String ℝ :=
  if H100_Pine * 10 ≤ 0 then .error "math domain error"
  else .ok (Real.exp (-0.9596 * Real.log (H100_Pine * 10) +
      0.01171 * (H100_Pine * 10) + 7.9209) / 10)

/-- `EkoStandSite.__Leijon_Spruce_to_Pine` (same conventions). -/
def Leijon_Spruce_to_Pine (H100_Spruce : ℝ) : Except String ℝ :=
  if H100_Spruce * 10 ≤ 0 then .error "math domain error"
  else .ok (Real.exp (1.6967 * Real.log (H100_Spruce * 10) -
      0.005179 * (H100_Spruce * 10) - 2.5397) / 10)

/-- The H100 branch of `EkoStandSite.__init__` (eko1985/site.py,
lines 78-89): with neither index a `ValueError` is raised; with exactly
one, the other is derived through the Leijon conversion. Returns the pair
`(H100_Spruce, H100_Pine)`. -/
def siteH100 (H100_Spruce H100_Pine : Option ℝ) : Except String (ℝ × ℝ) :=
  match H100_Spruce, H100_Pine with
  | none, none =>
      .error "At least one of h100_gran or h100_tall must be provided."
  | none, some hp => do
      let hs ← Leijon_Pine_to_Spruce hp
      .ok (hs, hp)
  | some hs, none => do
      let hp ← Leijon_Spruce_to_Pine hs
      .ok (hs, hp)
  | some hs, some hp => .ok (hs, hp)

/-- `EkoStandSite.__init__` (eko1985/site.py), over the English parameter
set (a Swedish alias, when passed, merely replaces the matching English
argument before this logic runs, so it is not modelled separately). -/
def siteInit (latitude altitude : ℝ) (vegetation : Option ℤ)
    (soil_moisture : Option ℤ) (H100_Spruce H100_Pine : Option ℝ)
    (region : Option RegionInput)
    (fertilised thinned_5y thinned TAX77 : Bool) :
    Except String EkoStandSite := do
  let h100 ← siteH100 H100_Spruce H100_Pine
  let fl := fieldLayerFlags vegetation latitude
  .ok
    { latitude := latitude
      altitude := altitude
      region := regionNormalize region
      H100_Pine := h100.2
      H100_Spruce := h100.1
      fertilised := fertilised
      thinned_5y := thinned_5y
      thinned := thinned
      TAX77 := TAX77
      Bilberry_or_Cowberry := fl.1
      HerbsGrassesNoFieldLayer := fl.2
      DrySoil := soil_moisture = some 1
      WetSoil := soil_moisture = some 5
      vegcode := vegcodeOf vegetation }

/-! ## base.py: species tags and cohort state -/

/-- `Trädslag` from src/eko1985/enums.py. -/
inductive Tradslag
  | TALL
  | GRAN
  | BJORK
  | BOK
  | EK
  | OV_LOV
deriving DecidableEq

/-- Cohort state, `EkoStandPart` from src/eko1985/base.py (the
back-reference to the stand is passed explicitly to the formulas instead
of being stored). -/
structure EkoStandPart where
  BA : ℝ
  stems : ℝ
  age : ℝ
  tradslag : Tradslag
  QMDOtherSpecies : ℝ
  BAOtherSpecies : ℝ
  QMD : ℝ
  HK : ℝ
  VOL : ℝ

/-- `EkoStandPart.__post_init__`: a freshly constructed cohort with
`QMD` initialized from `(BA, stems)` and the remaining derived fields at
their dataclass defaults. -/
def mkPart (BA stems age : ℝ) (t : Tradslag) : EkoStandPart :=
  { BA := BA
    stems := stems
    age := age
    tradslag := t
    QMDOtherSpecies := 0
    BAOtherSpecies := 0
    QMD := qmd_cm BA stems
    HK := 0
    VOL := 0 }

/-! ## species.py: getMortality

Each returns `(crowding fraction, 0.9 * QMD, other fraction, QMD)`. -/

/-- `EkoSpruce.getMortality` (src/eko1985/species.py). -/
def EkoSpruce_getMortality (site : EkoStandSite) (p : EkoStandPart)
    (increment : ℝ) : ℝ × ℝ × ℝ × ℝ :=
  let cr_ot : ℝ × ℝ :=
    if site.region = "North" ∨ site.region = "Central" then
      let AKL : ℤ := min ((pyInt p.age).fdiv 10 + 1) 17
      (((-0.2748e-02) + 0.4493e-03 * p.BA + 0.2515e-04 * p.BA ^ 2)
          * increment / 100,
        ((-0.3150e-03) + 0.3337e-01 * (AKL : ℝ)) / 100)
    else
      let stems2 := min p.stems 2800
      ((0.1235e-01 + (-0.2749e-02) * p.BA + 0.8214e-04 * p.BA ^ 2
          + 0.2457e-04 * stems2 + (-0.4498e-08) * stems2 ^ 2)
          * increment / 100,
        0.36 / 100)
  (clampCrowding cr_ot.1, 0.9 * p.QMD, cr_ot.2, p.QMD)

/-- `EkoPine.getMortality` (src/eko1985/species.py). -/
def EkoPine_getMortality (site : EkoStandSite) (p : EkoStandPart)
    (increment : ℝ) : ℝ × ℝ × ℝ × ℝ :=
  let cr_ot : ℝ × ℝ :=
    if site.region = "North" ∨ site.region = "Central" then
      let stems2 := min p.stems 2700
      ((0.3143e-01 + (-0.6877e-02) * p.BA + 0.2056e-03 * p.BA ^ 2
          + 0.2684e-04 * stems2 + (-0.5092e-08) * stems2 ^ 2)
          * increment / 100,
        0.35 / 100)
    else
      let stems2 := min p.stems 4000
      (((-0.6766e-01) + (-0.1283e-02) * p.BA + 0.7748e-04 * p.BA ^ 2
          + 0.1441e-03 * stems2 + (-0.1839e-07) * stems2 ^ 2)
          * increment / 100,
        0.38 / 100)
  (clampCrowding cr_ot.1, 0.9 * p.QMD, cr_ot.2, p.QMD)

/-- `EkoBirch.getMortality` (src/eko1985/species.py). -/
def EkoBirch_getMortality (site : EkoStandSite) (p : EkoStandPart)
    (increment : ℝ) : ℝ × ℝ × ℝ × ℝ :=
  let cr_ot : ℝ × ℝ :=
    if site.region = "North" ∨ site.region = "Central" then
      (((-0.2513e-01) + 0.5489e-02 * p.BA) * increment / 100, 0.78 / 100)
    else
      (0.04 * increment / 100, 0.46 / 100)
  (clampCrowding cr_ot.1, 0.9 * p.QMD, cr_ot.2, p.QMD)

/-- `EkoBroadleaf.getMortality` (src/eko1985/species.py). -/
def EkoBroadleaf_getMortality (site : EkoStandSite) (p : EkoStandPart)
    (increment : ℝ) : ℝ × ℝ × ℝ × ℝ :=
  let cr_ot : ℝ × ℝ :=
    if site.region = "North" ∨ site.region = "Central" then
      (((-0.7277e-02) + (-0.2456e-02) * p.BA + 0.1923e-03 * p.BA ^ 2)
          * increment / 100,
        0.5 / 100)
    else
      (0.04 * increment / 100, 0.46 / 100)
  (clampCrowding cr_ot.1, 0.9 * p.QMD, cr_ot.2, p.QMD)

/-- `EkoBeech.getMortality` (src/eko1985/species.py; identical shape to
the other-broadleaf regression). -/
def EkoBeech_getMortality (site : EkoStandSite) (p : EkoStandPart)
    (increment : ℝ) : ℝ × ℝ × ℝ × ℝ :=
  let cr_ot : ℝ × ℝ :=
    if site.region = "North" ∨ site.region = "Central" then
      (((-0.7277e-02) + (-0.2456e-02) * p.BA + 0.1923e-03 * p.BA ^ 2)
          * increment / 100,
        0.5 / 100)
    else
      (0.04 * increment / 100, 0.46 / 100)
  (clampCrowding cr_ot.1, 0.9 * p.QMD, cr_ot.2, p.QMD)

/-- `EkoOak.getMortality` (src/eko1985/species.py). -/
def EkoOak_getMortality (site : EkoStandSite) (p : EkoStandPart)
    (increment : ℝ) : ℝ × ℝ × ℝ × ℝ :=
  let cr_ot : ℝ × ℝ :=
    if site.region = "North" ∨ site.region = "Central" then
      (((-0.7277e-02) + (-0.2456e-02) * p.BA + 0.1923e-03 * p.BA ^ 2)
          * increment / 100,
        0.5 / 100)
    else
      (0.04 * increment / 100, 0.46 / 100)
  (clampCrowding cr_ot.1, 0.9 * p.QMD, cr_ot.2, p.QMD)

/-- Polymorphic dispatch of `getMortality` over the six species classes. -/
def getMortality (site : EkoStandSite) (p : EkoStandPart) (increment : ℝ) :
    ℝ × ℝ × ℝ × ℝ :=
  match p.tradslag with
  | .GRAN => EkoSpruce_getMortality site p increment
  | .TALL => EkoPine_getMortality site p increment
  | .BJORK => EkoBirch_getMortality site p increment
  | .OV_LOV => EkoBroadleaf_getMortality site p increment
  | .BOK => EkoBeech_getMortality site p increment
  | .EK => EkoOak_getMortality site p increment

/-! ## species.py: getVolume

`standBA` is `self.stand.StandBA`, read only by the southern
other-broadleaf regression. -/

/-- `EkoSpruce.getVolume` (src/eko1985/species.py). -/
def EkoSpruce_getVolume (site : EkoStandSite) (standBA : ℝ)
    (BA QMD age stems HK : ℝ) : ℝ :=
  let SIdm := site.H100_Spruce * 10
  if site.region = "North" then
    let F4age := 1 - Real.exp (-0.065 * age)
    let F4basal_area := 1 - Real.exp (-2.05 * BA)
    let lnVolume :=
      0.362521e-02 * BA
      + 1.35682 * log BA
      - 1.47258 * QMD
      - 0.438770 * F4basal_area
      + 1.46910 * F4age
      - 0.314730 * log stems
      + 0.228700 * log SIdm
      + 0.118700e-01 * pyBool site.thinned
      + 0.254896e-02 * HK
      + 1.970094
    Real.exp (lnVolume + 0.0388)
  else if site.region = "Central" then
    let F4age := 1 - Real.exp (-0.065 * age)
    let F4basal_area := 1 - Real.exp (-2.05 * BA)
    let lnVolume :=
      1.28359 * log BA
      - 0.380690 * F4basal_area
      + 1.21756 * F4age
      - 0.216690 * log stems
      + 0.350370 * log SIdm
      + 0.413000e-01 * pyBool site.HerbsGrassesNoFieldLayer
      + 0.362100e-01 * pyBool site.thinned
      + 0.268645e-02 * HK
      + 0.700490
    Real.exp (lnVolume + 0.0563)
  else
    let F4age := 1 - Real.exp (-0.04 * age)
    let F4basal_area := 1 - Real.exp (-2.05 * BA)
    let lnVolume :=
      1.22886 * log BA
      - 0.349820 * F4basal_area
      + 0.485170 * F4age
      - 0.152050 * log stems
      + 0.337640 * log SIdm
      + 0.129800e-01 * pyBool site.thinned
      + 0.548055e-03 * HK
      + 0.584600
    Real.exp (lnVolume + 0.0325)

/-- `EkoPine.getVolume` (src/eko1985/species.py). -/
def EkoPine_getVolume (site : EkoStandSite) (standBA : ℝ)
    (BA QMD age stems HK : ℝ) : ℝ :=
  let SIdm := site.H100_Pine * 10
  if site.region = "North" then
    let F4age := 1 - Real.exp (-0.06 * age)
    let F4basal_area := 1 - Real.exp (-2.3 * BA)
    let lnVolume :=
      1.24296 * log BA
      - 0.472530 * F4basal_area
      + 1.05864 * F4age
      - 0.170140 * log stems
      + 0.247550 * log SIdm
      + 0.213800e-01 * pyBool site.thinned
      + 0.295300e-01 * pyBool site.thinned_5y
      + 0.510332e-02 * HK
      + 1.08339
    Real.exp (lnVolume + 0.0275)
  else if site.region = "Central" then
    let F4age := 1 - Real.exp (-0.06 * age)
    let lnVolume :=
      0.778157e-02 * BA
      + 1.14159 * log BA
      + 0.927460 * F4age
      - 0.166730 * log stems
      + 0.304900 * log SIdm
      + 0.270200e-01 * pyBool site.thinned
      + 0.292836e-02 * HK
      + 0.910330
    Real.exp (lnVolume + 0.0273)
  else
    let F4age := 1 - Real.exp (-0.075 * age)
    let F4basal_area := 1 - Real.exp (-2.2 * BA)
    let lnVolume :=
      1.21272 * log BA
      - 0.299900 * F4basal_area
      + 1.01970 * F4age
      - 0.172300 * log stems
      + 0.369930 * log SIdm
      + 1.65136 * log site.latitude
      + 0.349200e-01 * log site.altitude
      - 0.197100e-01 * pyBool site.HerbsGrassesNoFieldLayer
      + 0.229100e-01 * pyBool site.thinned
      + 0.526017e-02 * HK
      - 6.46337
    Real.exp (lnVolume + 0.0260)

/-- `EkoBirch.getVolume` (src/eko1985/species.py). -/
def EkoBirch_getVolume (site : EkoStandSite) (standBA : ℝ)
    (BA QMD age stems HK : ℝ) : ℝ :=
  let SIdm := site.H100_Spruce * 10
  if site.region = "North" ∨ site.region = "Central" then
    let F4age := 1 - Real.exp (-0.035 * age)
    let F4basal_area := 1 - Real.exp (-2.05 * BA)
    let lnVolume :=
      1.26244 * log BA
      - 0.459580 * F4basal_area
      + 0.540420 * F4age
      - 0.176040 * log stems
      + 0.201360 * log SIdm
      - 1.68251 * log site.latitude
      - 0.404000e-01 * log site.altitude
      + 0.757200e-01 * pyBool site.fertilised
      + 0.301200e-01 * pyBool site.thinned
      + 0.401844e-02 * HK
      + 8.44862
    Real.exp (lnVolume + 0.0755)
  else
    let F4age := 1 - Real.exp (-0.07 * age)
    let F4basal_area := 1 - Real.exp (-2.1 * BA)
    let lnVolume :=
      (-0.786906e-02) * BA
      + 1.35254 * log BA
      - 1.30862 * QMD
      - 0.524630 * F4basal_area
      + 1.01779 * F4age
      - 0.254630 * log stems
      + 0.204880 * log SIdm
      + 2.75025 * log site.latitude
      + 0.774000e-01 * pyBool site.fertilised
      + 0.434800e-01 * pyBool site.thinned
      + 0.250449e-02 * HK
      - 9.38127
    Real.exp (lnVolume + 0.0595)

/-- `EkoBroadleaf.getVolume` (src/eko1985/species.py). -/
def EkoBroadleaf_getVolume (site : EkoStandSite) (standBA : ℝ)
    (BA QMD age stems HK : ℝ) : ℝ :=
  let SIdm := site.H100_Spruce * 10
  if site.region = "North" ∨ site.region = "Central" then
    let F4age := 1 - Real.exp (-0.04 * age)
    let F4basal_area := 1 - Real.exp (-2.3 * BA)
    let ln_volume :=
      1.26649 * log BA
      - 0.580030 * F4basal_area
      + 0.486310 * F4age
      - 0.172050 * log stems
      + 0.174930 * log SIdm
      - 1.51968 * log site.latitude
      - 0.368300e-01 * log site.altitude
      + 0.547400e-01 * pyBool site.thinned
      + 0.417126e-02 * HK
      + 7.79034
    Real.exp (ln_volume + 0.0853)
  else
    let F4age := 1 - Real.exp (-0.075 * age)
    let F4basal_area := 1 - Real.exp (-2.1 * BA)
    let ln_volume :=
      (-0.148700e-01) * BA
      + 1.29359 * log BA
      - 0.784820 * F4basal_area
      + 1.18741 * F4age
      - 0.135830 * log stems
      + 0.219890 * log SIdm
      + 2.02656 * log site.latitude
      + 0.242500e-01 * pyBool site.thinned
      + 0.859600e-01 * standBA
      + 0.509488e-03 * HK
      + 7.50102
    Real.exp (ln_volume + 0.0671)

/-- `EkoBeech.getVolume` (src/eko1985/species.py; no region branch). -/
def EkoBeech_getVolume (site : EkoStandSite) (standBA : ℝ)
    (BA QMD age stems HK : ℝ) : ℝ :=
  let SIdm := site.H100_Spruce * 10
  let F4age := 1 - Real.exp (-0.02 * age)
  let F4basal_area := 1 - Real.exp (-2.3 * BA)
  let lnVolume :=
    (-0.111600e-01) * BA
    + 1.30527 * log BA
    - 0.676190 * F4basal_area
    + 0.490740 * F4age
    - 0.151930 * log stems
    - 0.572600e-01 * log SIdm
    + 0.628000e-01 * pyBool site.thinned
    + 0.203927e-02 * HK
    + 2.85509
  Real.exp (lnVolume + 0.0392)

/-- `EkoOak.getVolume` (src/eko1985/species.py; no region branch). -/
def EkoOak_getVolume (site : EkoStandSite) (standBA : ℝ)
    (BA QMD age stems HK : ℝ) : ℝ :=
  let SIdm := site.H100_Spruce * 10
  let F4age := 1 - Real.exp (-0.055 * age)
  let F4basal_area := 1 - Real.exp (-2.3 * BA)
  let lnVolume :=
    (-0.106300e-01) * BA
    + 1.27353 * log BA
    - 0.463790 * F4basal_area
    + 0.801580 * F4age
    - 0.157080 * log stems
    + 0.159030 * log SIdm
    + 0.503200e-01 * pyBool site.thinned
    + 0.188030e-02 * HK
    + 1.40608
  Real.exp (lnVolume + 0.0756)

/-- Polymorphic dispatch of `getVolume` over the six species classes. -/
def getVolume (site : EkoStandSite) (standBA : ℝ) (t : Tradslag)
    (BA QMD age stems HK : ℝ) : ℝ :=
  match t with
  | .GRAN => EkoSpruce_getVolume site standBA BA QMD age stems HK
  | .TALL => EkoPine_getVolume site standBA BA QMD age stems HK
  | .BJORK => EkoBirch_getVolume site standBA BA QMD age stems HK
  | .OV_LOV => EkoBroadleaf_getVolume site standBA BA QMD age stems HK
  | .BOK => EkoBeech_getVolume site standBA BA QMD age stems HK
  | .EK => EkoOak_getVolume site standBA BA QMD age stems HK

/-! ## species.py: getBAI5

`qc` is `ba_quotient_chronic_mortality`, `qa` is
`ba_quotient_acute_mortality`. Each function returns the value stored
into `self.BAI5`. -/

/-- `EkoSpruce.getBAI5` (src/eko1985/species.py). -/
def EkoSpruce_getBAI5 (site : EkoStandSite) (p : EkoStandPart)
    (qc qa : ℝ) : ℝ :=
  let SIdm := site.H100_Spruce * 10
  if site.region = "North" then
    let independent_vars :=
      -0.767477 * qc
      + -0.514297 * qa
      + -1.43974 * p.QMD
      + -0.386338e-02 * p.HK
      + 0.204732 * pyBool site.fertilised
      + 0.186343 * site.vegcode
      + 0.392021e-01 * pyBool site.Bilberry_or_Cowberry
      + -0.807207e-01 * pyBool site.DrySoil
      + 0.833252
    let dependent_vars :=
      if SIdm < 160 then
        if !site.thinned then
          -0.736655e-02 * p.BA + 0.875788 * log p.BA
          - 0.642060e-04 * p.stems + 0.125396 * log p.stems
          + 0.159356e-02 * p.age - 0.764340 * log p.age
          - 0.594334e-02 * p.BAOtherSpecies
        else
          -0.187226e-01 * p.BA + 0.855970 * log p.BA
          + 0.106942e-03 * p.stems + 0.107612 * log p.stems
          + 0.321033e-02 * p.age - 0.737062 * log p.age
          - 0.206053e-01 * p.BAOtherSpecies
      else if SIdm < 200 then
        if !site.thinned then
          -0.191493e-01 * p.BA + 0.942389 * log p.BA
          - 0.145476e-03 * p.stems + 0.158511 * log p.stems
          + 0.289628e-02 * p.age - 0.804217 * log p.age
          - 0.125949e-01 * p.BAOtherSpecies
        else
          -0.255254e-01 * p.BA + 0.955380 * log p.BA
          - 0.642149e-04 * p.stems + 0.164265 * log p.stems
          + 0.554025e-02 * p.age - 0.866520 * log p.age
          - 0.889755e-02 * p.BAOtherSpecies
      else
        if !site.thinned then
          -0.210737e-01 * p.BA + 0.932275 * log p.BA
          - 0.572335e-04 * p.stems + 0.152017 * log p.stems
          + 0.342622e-02 * p.age - 0.811183 * log p.age
          - 0.905176e-02 * p.BAOtherSpecies
        else
          -0.133941e-01 * p.BA + 0.837783 * log p.BA
          - 0.245946e-03 * p.stems + 0.205142 * log p.stems
          + 0.602419e-02 * p.age - 0.862195 * log p.age
          - 0.135941e-01 * p.BAOtherSpecies
    Real.exp (dependent_vars + independent_vars + 0.0564)
  else if site.region = "Central" then
    let independent_vars :=
      -1.16597 * qc
      + -0.299327 * qa
      + 0.783806e-01 * pyBool site.thinned_5y
      + 0.572131e-01 * site.vegcode
      + -0.112938e-01 * pyBool site.WetSoil
      + 0.546176e-01 * site.latitude
      + 0.332621e-01 * pyBool site.TAX77
    let dependent_vars :=
      if SIdm < 180 then
        if !site.thinned then
          -0.802837e-02 * p.BA + 0.751220 * log p.BA
          - 0.800241e-04 * p.stems + 0.239814 * log p.stems
          - 0.148757e-02 * p.age - 0.476534 * log p.age
          - 0.308451e-01 * p.BAOtherSpecies - 4.02484
        else
          -0.330623e-01 * p.BA + 1.06539 * log p.BA
          + 0.145290e-03 * p.stems + 0.422450e-01 * log p.stems
          + 0.110998e-01 * p.age - 1.71468 * log p.age
          - 0.236447e-01 * p.BAOtherSpecies + 1.06383
      else if SIdm < 220 then
        if !site.thinned then
          -0.211171e-01 * p.BA + 0.837241 * log p.BA
          - 0.800241e-04 * p.stems + 0.239814 * log p.stems
          + 0.492578e-02 * p.age - 0.839650 * log p.age
          - 0.269523e-02 * p.BAOtherSpecies - 2.91926
        else
          -0.180419e-01 * p.BA + 0.943986 * log p.BA
          + 0.145290e-03 * p.stems + 0.422450e-01 * log p.stems
          + 0.525585e-02 * p.age - 0.982261 * log p.age
          - 0.786807e-02 * p.BAOtherSpecies - 1.56544
      else if SIdm < 260 then
        if !site.thinned then
          -0.263745e-01 * p.BA + 0.915196 * log p.BA
          - 0.800241e-04 * p.stems + 0.239814 * log p.stems
          - 0.384471e-02 * p.age - 0.847753 * log p.age
          - 0.252559e-01 * p.BAOtherSpecies + 2.85518
        else
          -0.217674e-01 * p.BA + 0.847682 * log p.BA
          - 0.145290e-03 * p.stems + 0.422450e-01 * log p.stems
          + 0.101626e-01 * p.age - 1.37782 * log p.age
          - 0.268779e-01 * p.BAOtherSpecies + 0.178428
      else
        if !site.thinned then
          -0.244742e-01 * p.BA + 0.787195 * log p.BA
          - 0.800241e-04 * p.stems + 0.239814 * log p.stems
          + 0.371613e-02 * p.age - 0.561641 * log p.age
          - 0.298097e-01 * p.BAOtherSpecies - 3.17570
        else
          -0.239679e-01 * p.BA + 0.924765 * log p.BA
          + 0.145290e-03 * p.stems + 0.422450e-01 * log p.stems
          + 0.631561e-03 * p.age - 0.893401 * log p.age
          - 0.908286e-02 * p.BAOtherSpecies - 1.46143
    Real.exp (dependent_vars + independent_vars + 0.0712)
  else
    let independent_vars :=
      -0.780391 * qc
      + -0.252170 * qa
      + -0.318464e-01 * pyBool site.thinned_5y
      + 0.778093e-01 * pyBool site.fertilised
      + 0.127135e-02 * SIdm
      + 0.262484e-01 * site.vegcode
      + -0.736690e-01 * pyBool site.DrySoil
      + -0.269193e-01 * site.latitude
      + -0.959785e-01 * pyBool site.TAX77
    let dependent_vars :=
      if SIdm < 220 then
        if !site.thinned then
          -0.149200e-01 * p.BA + 0.794859 * log p.BA
          - 0.120956e-03 * p.stems + 0.255053 * log p.stems
          - 0.720252 * log p.age
          - 0.229139e-01 * p.BAOtherSpecies + 1.52732
        else
          -0.227763e-01 * p.BA + 0.838105 * log p.BA
          + 0.519813e-03 * p.stems + 0.141232 * log p.stems
          - 0.722723 * log p.age
          - 0.237689e-01 * p.BAOtherSpecies + 1.93218
      else if SIdm < 260 then
        if !site.thinned then
          -0.167127e-01 * p.BA + 0.794738 * log p.BA
          - 0.923244e-04 * p.stems + 0.279717 * log p.stems
          - 0.790588 * log p.age
          - 0.187801e-01 * p.BAOtherSpecies + 1.67230
        else
          -0.167448e-01 * p.BA + 0.835811 * log p.BA
          - 0.995431e-04 * p.stems + 0.258612 * log p.stems
          - 0.931549 * log p.age
          - 0.167010e-01 * p.BAOtherSpecies + 2.34225
      else if SIdm < 300 then
        if !site.thinned then
          -0.221875e-01 * p.BA + 0.832287 * log p.BA
          - 0.110872e-03 * p.stems + 0.271386 * log p.stems
          - 0.735989 * log p.age
          - 0.196143e-01 * p.BAOtherSpecies + 1.50310
        else
          -0.203970e-01 * p.BA + 0.836890 * log p.BA
          - 0.755155e-04 * p.stems + 0.248563 * log p.stems
          - 0.716504 * log p.age
          - 0.151436e-01 * p.BAOtherSpecies + 1.50719
      else
        if !site.thinned then
          -0.243263e-01 * p.BA + 0.902730 * log p.BA
          - 0.706319e-04 * p.stems + 0.198283 * log p.stems
          - 0.713230 * log p.age
          - 0.135840e-01 * p.BAOtherSpecies + 1.71136
        else
          -0.218319e-01 * p.BA + 0.855200 * log p.BA
          - 0.176554e-03 * p.stems + 0.269091 * log p.stems
          - 0.765104 * log p.age
          - 0.180257e-01 * p.BAOtherSpecies + 1.62508
    Real.exp (dependent_vars + independent_vars + 0.0737)

/-- `EkoPine.getBAI5` (src/eko1985/species.py). -/
def EkoPine_getBAI5 (site : EkoStandSite) (p : EkoStandPart)
    (qc qa : ℝ) : ℝ :=
  let SIdm := site.H100_Pine * 10
  if site.region = "North" then
    let independent_vars :=
      -0.598419 * qc
      + -0.486198 * qa
      + -0.952624e-02 * p.HK
      + 0.674527e-01 * pyBool site.thinned_5y
      + 0.100135 * site.vegcode
      + -0.104076 * pyBool site.WetSoil
      + -0.329437e-01 * log site.altitude
      + 0.526479e-01 * pyBool site.TAX77
      + 0.164446
    let dependent_vars :=
      if SIdm < 160 then
        if !site.thinned then
          -0.342051e-01 * p.BA + 0.757840 * log p.BA
          - 0.161442e-03 * p.stems + 0.367048 * log p.stems
          + 0.313386e-02 * p.age - 0.842335 * log p.age
          - 0.157312e-01 * p.BAOtherSpecies
        else
          -0.222808e-01 * p.BA + 0.707173 * log p.BA
          - 0.407064e-03 * p.stems + 0.386522 * log p.stems
          + 0.309020e-02 * p.age - 0.840856 * log p.age
          - 0.168721e-01 * p.BAOtherSpecies
      else if SIdm < 200 then
        if !site.thinned then
          -0.264194e-01 * p.BA + 0.759517 * log p.BA
          - 0.172838e-03 * p.stems + 0.354319 * log p.stems
          + 0.282339e-02 * p.age - 0.830969 * log p.age
          - 0.920265e-02 * p.BAOtherSpecies
        else
          -0.215557e-01 * p.BA + 0.678298 * log p.BA
          - 0.223194e-03 * p.stems + 0.345910 * log p.stems
          + 0.230893e-02 * p.age - 0.759426 * log p.age
          - 0.129081e-01 * p.BAOtherSpecies
      else
        if !site.thinned then
          -0.242773e-01 * p.BA + 0.743286 * log p.BA
          - 0.127080e-03 * p.stems + 0.328240 * log p.stems
          + 0.203892e-02 * p.age - 0.756105 * log p.age
          - 0.136312e-01 * p.BAOtherSpecies
        else
          -0.100435e-01 * p.BA + 0.659451 * log p.BA
          - 0.181913e-03 * p.stems + 0.369130 * log p.stems
          + 0.227817e-02 * p.age - 0.793134 * log p.age
          - 0.817145e-02 * p.BAOtherSpecies
    Real.exp (dependent_vars + independent_vars + 0.0645)
  else if site.region = "Central" then
    let independent_vars :=
      -0.757422 * qc
      + -0.819721 * qa
      + -0.156937e-01 * p.HK
      + 0.657419e-01 * pyBool site.fertilised
      + 0.208293e-02 * SIdm
      + 0.393424e-01 * site.vegcode
      + -0.787040e-01 * pyBool site.DrySoil
      + 0.952773e-01 * pyBool site.TAX77
      - 0.466279
    let dependent_vars :=
      if SIdm < 180 then
        if !site.thinned then
          -0.247769e-01 * p.BA + 0.739123 * log p.BA
          - 0.724080e-04 * p.stems + 0.307962 * log p.stems
          + 0.213813e-02 * p.age - 0.730167 * log p.age
          - 0.304936e-02 * p.BAOtherSpecies
        else
          -0.454216e-01 * p.BA + 0.967594 * log p.BA
          + 0.134748e-03 * p.stems + 0.106405 * log p.stems
          + 0.322181e-02 * p.age - 0.559074 * log p.age
          - 0.146382e-01 * p.BAOtherSpecies
      else if SIdm < 220 then
        if !site.thinned then
          -0.204976e-01 * p.BA + 0.710569 * log p.BA
          - 0.331436e-04 * p.stems + 0.318007 * log p.stems
          + 0.186999e-02 * p.age - 0.732359 * log p.age
          - 0.488064e-02 * p.BAOtherSpecies
        else
          0.144234e-01 * p.BA + 0.304194 * log p.BA
          - 0.111460e-02 * p.stems + 0.628499 * log p.stems
          + 0.545633e-02 * p.age - 0.977317 * log p.age
          - 0.126636e-01 * p.BAOtherSpecies
      else
        if !site.thinned then
          -0.242132e-01 * p.BA + 0.746931 * log p.BA
          - 0.120517e-03 * p.stems + 0.327216 * log p.stems
          + 0.254795e-02 * p.age - 0.758639 * log p.age
          - 0.978754e-02 * p.BAOtherSpecies
        else
          -0.126617e-01 * p.BA + 0.599420 * log p.BA
          - 0.405408e-03 * p.stems + 0.472836 * log p.stems
          + 0.455547e-02 * p.age - 0.895734 * log p.age
          - 0.106365e-01 * p.BAOtherSpecies
    Real.exp (dependent_vars + independent_vars + 0.0507)
  else
    let independent_vars :=
      -1.04202 * qc
      + -0.637943 * qa
      + -1.75160 * p.QMD
      + -0.592599e-02 * p.HK
      + 0.637421e-01 * pyBool site.thinned_5y
      + 0.462966e-01 * pyBool site.fertilised
      + 0.522489e-01 * site.vegcode
      + -0.702839e-01 * pyBool site.DrySoil
      + -0.111568e-01 * site.latitude
      + -0.466973e-01 * pyBool site.TAX77
    let dependent_vars :=
      if SIdm < 160 then
        if !site.thinned then
          -0.497800e-01 * p.BA + 1.19990 * log p.BA
          + 0.114548e-04 * p.stems + 0.164713 * log p.stems
          - 0.884162e-03 * p.age - 0.564604 * log p.age
          - 0.153879e-01 * p.BAOtherSpecies + 0.579562
        else
          -0.302305e-01 * p.BA + 0.938947 * log p.BA
          + 0.563241e-03 * p.stems + 0.148914 * log p.stems
          + 0.419586e-02 * p.age - 1.15586 * log p.age
          - 0.138465e-01 * p.BAOtherSpecies + 2.72773
      else if SIdm < 200 then
        if !site.thinned then
          -0.123212e-01 * p.BA + 0.864851 * log p.BA
          - 0.497769e-04 * p.stems + 0.200066 * log p.stems
          + 0.211976e-02 * p.age - 0.821163 * log p.age
          - 0.941390e-02 * p.BAOtherSpecies + 1.59527
        else
          -0.216126e-02 * p.BA + 0.938131 * log p.BA
          - 0.169034e-03 * p.stems + 0.621225e-01 * log p.stems
          + 0.305833e-02 * p.age - 1.18279 * log p.age
          - 0.439063e-03 * p.BAOtherSpecies + 3.39954
      else if SIdm < 240 then
        if !site.thinned then
          -0.107718e-01 * p.BA + 0.796896 * log p.BA
          - 0.975686e-04 * p.stems + 0.230066 * log p.stems
          - 0.577520e-03 * p.age - 0.570857 * log p.age
          - 0.155230e-01 * p.BAOtherSpecies + 0.784527
        else
          -0.632941e-02 * p.BA + 0.767710 * log p.BA
          - 0.173551e-03 * p.stems + 0.173044 * log p.stems
          + 0.163026e-02 * p.age - 0.945376 * log p.age
          - 0.133437e-01 * p.BAOtherSpecies + 2.49514
      else
        if !site.thinned then
          -0.738511e-02 * p.BA + 0.809028 * log p.BA
          - 0.207393e-03 * p.stems + 0.199179 * log p.stems
          + 0.259619e-03 * p.age - 0.663161 * log p.age
          - 0.142082e-01 * p.BAOtherSpecies + 1.27892
        else
          -0.207497e-01 * p.BA + 1.00931 * log p.BA
          - 0.653755e-05 * p.stems + 0.851371e-01 * log p.stems
          - 0.307386e-02 * p.age - 0.635182 * log p.age
          - 0.110970e-01 * p.BAOtherSpecies + 1.57124
    Real.exp (dependent_vars + independent_vars + 0.0636)

/-- `EkoBirch.getBAI5` (src/eko1985/species.py). -/
def EkoBirch_getBAI5 (site : EkoStandSite) (p : EkoStandPart)
    (qc qa : ℝ) : ℝ :=
  let SIdm := site.H100_Spruce * 10
  if site.region = "North" ∨ site.region = "Central" then
    let independent_vars :=
      -0.474848 * qc
      + -0.207333 * qa
      + -0.202362e-02 * p.HK
      + 0.914442e-01 * pyBool site.thinned_5y
      + 0.176843 * pyBool site.fertilised
      + 0.256714 * site.vegcode
      + -0.488706e-01 * pyBool site.WetSoil
      + -0.139928e-01 * site.latitude
      + -0.462992 * site.altitude
      + 0.189383 * pyBool site.TAX77
    let dependent_vars :=
      if SIdm < 140 then
        if !site.thinned then
          0.281210e-02 * p.BA + 0.718062 * log p.BA
          - 0.264120e-03 * p.stems + 0.360947 * log p.stems
          - 0.513560 * log p.age
          - 0.146581e-01 * p.BAOtherSpecies - 0.768510
        else
          0.856585e-01 * p.BA + 0.488507 * log p.BA
          - 0.549010e-03 * p.stems + 0.467588 * log p.stems
          - 0.618645 * log p.age
          - 0.477226e-02 * p.BAOtherSpecies - 0.768510
      else if SIdm < 180 then
        if !site.thinned then
          0.831133e-02 * p.BA + 0.660201 * log p.BA
          - 0.161770e-03 * p.stems + 0.361272 * log p.stems
          - 0.609806 * log p.age
          - 0.133204e-01 * p.BAOtherSpecies - 0.355882
        else
          0.665931e-02 * p.BA + 0.700295 * log p.BA
          - 0.221485e-03 * p.stems + 0.316196 * log p.stems
          - 0.489888 * log p.age
          - 0.246752e-01 * p.BAOtherSpecies - 0.355882
      else if SIdm < 220 then
        if !site.thinned then
          -0.371203e-02 * p.BA + 0.835899 * log p.BA
          - 0.141238e-03 * p.stems + 0.221611 * log p.stems
          - 0.732659 * log p.age
          - 0.131446e-01 * p.BAOtherSpecies + 0.891049
        else
          -0.134251e-02 * p.BA + 0.838751 * log p.BA
          - 0.237653e-03 * p.stems + 0.192259 * log p.stems
          - 0.707746 * log p.age
          - 0.499067e-02 * p.BAOtherSpecies + 0.891049
      else
        if !site.thinned then
          -0.281602e-01 * p.BA + 0.800357 * log p.BA
          + 0.673284e-04 * p.stems + 0.205233 * log p.stems
          - 0.631139 * log p.age
          - 0.176494e-01 * p.BAOtherSpecies + 0.731245
        else
          -0.177526e-01 * p.BA + 0.814686 * log p.BA
          + 0.781625e-04 * p.stems + 0.183532 * log p.stems
          - 0.593656 * log p.age
          - 0.211444e-01 * p.BAOtherSpecies + 0.731245
    Real.exp (dependent_vars + independent_vars + 0.1642)
  else
    let independent_vars :=
      -0.617367 * qc
      + -0.350920 * qa
      + -0.134245e-02 * p.HK
      + 0.277904 * pyBool site.fertilised
      + 0.154562 * site.vegcode
      + 0.554711e-01 * pyBool site.TAX77
    let dependent_vars :=
      if SIdm < 220 then
        if !site.thinned then
          -0.850224e-02 * p.BA + 0.931518 * log p.BA
          - 0.874696e-04 * p.stems + 0.124964 * log p.stems
          - 0.890226e-02 * p.age - 0.498825 * log p.age
          - 0.493910e-02 * p.BAOtherSpecies - 0.135041
        else
          0.144427 * p.BA + 0.332109 * log p.BA
          - 0.457988e-03 * p.stems + 0.474159 * log p.stems
          + 0.922378e-02 * p.age - 1.50315 * log p.age
          - 0.116043e-01 * p.BAOtherSpecies + 1.19213
      else if SIdm < 260 then
        if !site.thinned then
          0.129783e-01 * p.BA + 0.688150 * log p.BA
          - 0.158067e-03 * p.stems + 0.304149 * log p.stems
          + 0.411176e-02 * p.age - 0.864501 * log p.age
          - 0.533730e-02 * p.BAOtherSpecies - 0.135041
        else
          -0.235447e-01 * p.BA + 0.962877 * log p.BA
          + 0.103737e-03 * p.stems + 0.186790 * log p.stems
          - 0.127109e-02 * p.age - 1.02854 * log p.age
          - 0.849201e-02 * p.BAOtherSpecies + 1.19213
      else if SIdm < 300 then
        if !site.thinned then
          -0.110984e-01 * p.BA + 0.748193 * log p.BA
          - 0.434390e-04 * p.stems + 0.270476 * log p.stems
          + 0.823613e-03 * p.age - 0.718419 * log p.age
          - 0.174522e-01 * p.BAOtherSpecies - 0.135041
        else
          -0.438786e-03 * p.BA + 0.818427 * log p.BA
          - 0.304146e-03 * p.stems + 0.241055 * log p.stems
          + 0.106700e-01 * p.age - 1.16385 * log p.age
          - 0.1978220e-01 * p.BAOtherSpecies + 1.19213
      else
        if !site.thinned then
          -0.204315e-01 * p.BA + 0.792798 * log p.BA
          - 0.179026e-03 * p.stems + 0.316913 * log p.stems
          + 0.262117e-02 * p.age - 0.791796 * log p.age
          - 0.146037e-01 * p.BAOtherSpecies - 0.135041
        else
          0.255898e-02 * p.BA + 0.730671 * log p.BA
          + 0.256307e-04 * p.stems + 0.256131 * log p.stems
          + 0.126785e-01 * p.age - 1.24005 * log p.age
          - 0.341768e-02 * p.BAOtherSpecies + 1.19213
    Real.exp (dependent_vars + independent_vars + 0.1590)

/-- `EkoBroadleaf.getBAI5` (src/eko1985/species.py). In the southern
regression the competition term is `log(BAOtherSpecies)` (safe log), and
the 240-280 site-index bracket uses `stems` and `age` with coefficients
that structurally look like log-term coefficients — reproduced verbatim. -/
def EkoBroadleaf_getBAI5 (site : EkoStandSite) (p : EkoStandPart)
    (qc qa : ℝ) : ℝ :=
  let SIdm := site.H100_Spruce * 10
  if site.region = "North" ∨ site.region = "Central" then
    let independent_vars :=
      -0.345933 * qc
      - 0.138015 * site.vegcode
      - 0.650878e-01 * pyBool site.Bilberry_or_Cowberry
      - 0.175149e-01 * site.latitude
      - 0.570035e-03 * site.altitude
      + 0.151318 * pyBool site.TAX77
    let dependent_vars :=
      if SIdm < 160 then
        if !site.thinned then
          0.865166e-01 * p.BA + 0.755603 * log p.BA
          - 0.806548e-03 * p.stems + 0.275974 * log p.stems
          - 0.540881e-02 * p.age - 0.117056 * log p.age
          - 0.187866e-01 * p.BAOtherSpecies - 1.18519
        else
          0.865166e-01 * p.BA + 0.755603 * log p.BA
          - 0.806548e-03 * p.stems + 0.275974 * log p.stems
          - 0.540881e-02 * p.age - 0.117056 * log p.age
          - 0.187866e-01 * p.BAOtherSpecies - 0.952398
      else if SIdm < 200 then
        if !site.thinned then
          -0.129773e-01 * p.BA + 0.989525 * log p.BA
          - 0.715363e-04 * p.stems + 0.490676e-01 * log p.stems
          + 0.218728e-02 * p.age - 0.944317 * log p.age
          - 0.143834e-01 * p.BAOtherSpecies + 2.78296
        else
          -0.129773e-01 * p.BA + 0.989525 * log p.BA
          - 0.715363e-04 * p.stems + 0.490676e-01 * log p.stems
          + 0.218728e-02 * p.age - 0.944317 * log p.age
          - 0.143834e-01 * p.BAOtherSpecies + 2.87671
      else if SIdm < 240 then
        if !site.thinned then
          0.517826e-01 * p.BA + 0.768565 * log p.BA
          - 0.381320e-03 * p.stems + 0.201267 * log p.stems
          + 0.131078e-02 * p.age - 0.831523 * log p.age
          - 0.122796e-01 * p.BAOtherSpecies + 1.65650
        else
          0.517826e-01 * p.BA + 0.768565 * log p.BA
          - 0.381320e-03 * p.stems + 0.201267 * log p.stems
          + 0.131078e-02 * p.age - 0.831523 * log p.age
          - 0.122796e-01 * p.BAOtherSpecies + 1.59209
      else
        if !site.thinned then
          0.243920e-02 * p.BA + 0.857832 * log p.BA
          - 0.949555e-04 * p.stems + 0.192173 * log p.stems
          - 0.292753e-02 * p.age - 0.570009 * log p.age
          - 0.240816e-01 * p.BAOtherSpecies + 0.916942
        else
          0.243920e-02 * p.BA + 0.857832 * log p.BA
          - 0.949555e-04 * p.stems + 0.192173 * log p.stems
          - 0.292753e-02 * p.age - 0.570009 * log p.age
          - 0.240816e-01 * p.BAOtherSpecies + 1.17865
    Real.exp (dependent_vars + independent_vars + 0.1648)
  else
    let independent_vars :=
      -1.20049 * qc
      - 0.367064 * qa
      + 0.125048 * pyBool site.thinned_5y
      + 0.246684 * pyBool site.fertilised
      + 0.141955 * site.vegcode
      + 0.354866e-01 * site.latitude
      - 0.361988e-03 * site.altitude
    let dependent_vars :=
      if SIdm < 240 then
        if !site.thinned then
          0.857153 * log p.BA
          - 0.541853e-04 * p.stems + 0.152684 * log p.stems
          - 0.803085e-02 * p.age - 0.570230 * log p.age
          - 0.100518 * log p.BAOtherSpecies - 1.93895
        else
          0.857153 * log p.BA
          - 0.541853e-04 * p.stems + 0.152684 * log p.stems
          - 0.803085e-02 * p.age - 0.570230 * log p.age
          - 0.100518 * log p.BAOtherSpecies - 2.01960
      else if SIdm < 280 then
        if !site.thinned then
          0.794405 * log p.BA
          - 0.247009 * p.stems + 0.202344 * log p.stems
          - 0.250423 * p.age - 0.669629 * log p.age
          - 0.101205 * log p.BAOtherSpecies - 1.93895
        else
          0.794405 * log p.BA
          - 0.247009 * p.stems + 0.202344 * log p.stems
          - 0.250423 * p.age - 0.669629 * log p.age
          - 0.101205 * log p.BAOtherSpecies - 2.01960
      else if SIdm < 320 then
        if !site.thinned then
          0.782374 * log p.BA
          - 0.125111e-03 * p.stems + 0.239626 * log p.stems
          - 0.787146e-03 * p.age - 0.733575 * log p.age
          - 0.823802e-01 * log p.BAOtherSpecies - 1.93895
        else
          0.782374 * log p.BA
          - 0.125111e-03 * p.stems + 0.239626 * log p.stems
          - 0.787146e-03 * p.age - 0.733575 * log p.age
          - 0.823802e-01 * log p.BAOtherSpecies - 2.01960
      else
        if !site.thinned then
          0.771398 * log p.BA
          + 0.427071e-04 * p.stems + 0.167037 * log p.stems
          - 0.190695e-02 * p.age - 0.587696 * log p.age
          - 0.113489 * log p.BAOtherSpecies - 1.93895
        else
          0.771398 * log p.BA
          + 0.427071e-04 * p.stems + 0.167037 * log p.stems
          - 0.190695e-02 * p.age - 0.587696 * log p.age
          - 0.113489 * log p.BAOtherSpecies - 2.01960
    Real.exp (dependent_vars + independent_vars + 0.1734)

/-- `EkoBeech.getBAI5` (src/eko1985/species.py; no region branch). -/
def EkoBeech_getBAI5 (site : EkoStandSite) (p : EkoStandPart)
    (qc qa : ℝ) : ℝ :=
  let SIdm := site.H100_Spruce * 10
  let independent_vars :=
    -0.862301 * qa + 0.162579e-02 * SIdm + 0.538943
  let dependent_vars :=
    if SIdm < 310 then
      if !site.thinned then
        0.948126 * log p.BA + 0.563620e-01 * log p.stems
        - 0.751665 * log p.age - 0.163302e-01 * p.BAOtherSpecies
      else
        0.948126 * log p.BA + 0.563620e-01 * log p.stems
        - 0.751665 * log p.age - 0.163302e-01 * p.BAOtherSpecies
        + 0.887110e-01
    else
      if !site.thinned then
        0.821914 * log p.BA + 0.102770 * log p.stems
        - 0.753735 * log p.age - 0.163641e-01 * p.BAOtherSpecies
      else
        0.821914 * log p.BA + 0.102770 * log p.stems
        - 0.753735 * log p.age - 0.163641e-01 * p.BAOtherSpecies
        + 0.887110e-01
  Real.exp (dependent_vars + independent_vars + 0.1379)

/-- `EkoOak.getBAI5` (src/eko1985/species.py; no region or thinning
branch). -/
def EkoOak_getBAI5 (site : EkoStandSite) (p : EkoStandPart)
    (qc qa : ℝ) : ℝ :=
  let SIdm := site.H100_Spruce * 10
  let independent_vars := -0.389169 * qa - 0.609667
  let dependent_vars :=
    if SIdm < 280 then
      0.896599 * log p.BA + 0.199354 * log p.stems
      - 0.842665 * log p.age - 0.146432e-01 * p.BAOtherSpecies
    else if SIdm < 320 then
      0.847420 * log p.BA + 0.144495 * log p.stems
      - 0.727278 * log p.age - 0.222990e-01 * p.BAOtherSpecies
    else
      0.851362 * log p.BA + 0.128100 * log p.stems
      - 0.667346 * log p.age - 0.199705e-01 * p.BAOtherSpecies
  Real.exp (dependent_vars + independent_vars + 0.1618)

/-- Polymorphic dispatch of `getBAI5` over the six species classes. -/
def getBAI5 (site : EkoStandSite) (p : EkoStandPart) (qc qa : ℝ) : ℝ :=
  match p.tradslag with
  | .GRAN => EkoSpruce_getBAI5 site p qc qa
  | .TALL => EkoPine_getBAI5 site p qc qa
  | .BJORK => EkoBirch_getBAI5 site p qc qa
  | .OV_LOV => EkoBroadleaf_getBAI5 site p qc qa
  | .BOK => EkoBeech_getBAI5 site p qc qa
  | .EK => EkoOak_getBAI5 site p qc qa

/-! ## stand.py: shared helpers

Python iterates `for q in self.parts if q is not p`; with one object per
list position this is summation over every index other than the cohort's
own, written here as a fold carrying the running index. -/

/-- Map with the element index, starting from a given index. -/
def mapFrom {α β : Type} (f : ℕ → α → β) : ℕ → List α → List β
  | _, [] => []
  | i, q :: qs => f i q :: mapFrom f (i + 1) qs

/-- `safe_sum(f(q) for q in parts if q is not parts[i])`, folding from
running index `j`. -/
def sumExcept {α : Type} (f : α → ℝ) (i : ℕ) : ℕ → List α → ℝ
  | _, [] => 0
  | j, q :: qs => (if j = i then 0 else f q) + sumExcept f i (j + 1) qs

/-- `safe_sum` over a whole list. -/
def sumAll {α : Type} (f : α → ℝ) : List α → ℝ
  | [] => 0
  | q :: qs => f q + sumAll f qs

/-- `EkoStand._volume_for` from the overlay module eko1985/stand.py:
degenerate cohorts (BA ≤ 0 or stems ≤ 0) get volume exactly 0, bypassing
the species regression (its `except ValueError` arm only catches the
unattached-cohort error, which cannot arise here since the site is passed
in). The packaged module has no such guard and calls `getVolume`
directly. -/
def volume_for (site : EkoStandSite) (standBA : ℝ) (t : Tradslag)
    (BA QMD age stems HK : ℝ) : ℝ :=
  if BA ≤ 0 ∨ stems ≤ 0 then 0
  else getVolume site standBA t BA QMD age stems HK

/-- One cohort's state after `_competition_metrics` (identical in the
overlay and packaged modules): own QMD refreshed from `(BA, stems)`,
then competition against the basal area and stems of every *other*
cohort, with the own QMD floored at `1e-9` in the denominator of `HK`. -/
def competedPart (parts : List EkoStandPart) (i : ℕ) (p : EkoStandPart) :
    EkoStandPart :=
  let QMD := qmd_cm p.BA p.stems
  let BA_other := sumExcept (fun q => q.BA) i 0 parts
  let N_other := sumExcept (fun q => q.stems) i 0 parts
  let denom := if 0 < QMD then QMD else 1e-9
  { p with
      QMD := QMD
      BAOtherSpecies := BA_other
      QMDOtherSpecies := qmd_cm BA_other N_other
      HK := qmd_cm BA_other N_other / denom * BA_other }

/-- One cohort's state after `_assign_current_state_metrics` of the
overlay module (volume through the guarded `_volume_for`). `standBA` is
the value the lazy `StandBA` property yields during the volume pass. -/
def refreshOneRoot (site : EkoStandSite) (standBA : ℝ)
    (parts : List EkoStandPart) (i : ℕ) (p : EkoStandPart) : EkoStandPart :=
  let pc := competedPart parts i p
  { pc with
      VOL := volume_for site standBA pc.tradslag pc.BA pc.QMD pc.age
        pc.stems pc.HK }

/-- One cohort's state after `_assign_current_state_metrics` of the
packaged module (volume through `p.getVolume` directly, no degenerate
guard). -/
def refreshOnePkg (site : EkoStandSite) (standBA : ℝ)
    (parts : List EkoStandPart) (i : ℕ) (p : EkoStandPart) : EkoStandPart :=
  let pc := competedPart parts i p
  { pc with
      VOL := getVolume site standBA pc.tradslag pc.BA pc.QMD pc.age
        pc.stems pc.HK }

/-- Stand state: the cohort list plus the totals cached by the most
recent metrics refresh. -/
structure EkoStand where
  site : EkoStandSite
  parts : List EkoStandPart
  StandBA : ℝ
  StandStems : ℝ
  StandVOL : ℝ

/-- `_assign_current_state_metrics` of the overlay module, producing the
refreshed stand. `standBA` is the cached `StandBA` visible while the
volume pass runs (only the southern other-broadleaf regression reads
it). -/
def assignMetricsRoot (site : EkoStandSite) (standBA : ℝ)
    (parts : List EkoStandPart) : EkoStand :=
  let rp := mapFrom (refreshOneRoot site standBA parts) 0 parts
  { site := site
    parts := rp
    StandBA := sumAll (fun p => p.BA) rp
    StandStems := sumAll (fun p => p.stems) rp
    StandVOL := sumAll (fun p => p.VOL) rp }

/-- `_assign_current_state_metrics` of the packaged module. -/
def assignMetricsPkg (site : EkoStandSite) (standBA : ℝ)
    (parts : List EkoStandPart) : EkoStand :=
  let rp := mapFrom (refreshOnePkg site standBA parts) 0 parts
  { site := site
    parts := rp
    StandBA := sumAll (fun p => p.BA) rp
    StandStems := sumAll (fun p => p.stems) rp
    StandVOL := sumAll (fun p => p.VOL) rp }

/-! ## stand.py: construction -/

/-- An element of the collection handed to `EkoStand.__init__`: either an
`EkoStandPart` or some other Python object (which fails the
`isinstance` check). -/
inductive StandElem
  | part : EkoStandPart → StandElem
  | nonpart : StandElem

/-- Whether an element passes `isinstance(p, EkoStandPart)`. -/
def StandElem.isPart : StandElem → Bool
  | .part _ => true
  | .nonpart => false

/-- `EkoStand.__init__` (identical in both modules apart from the volume
guard inside the final refresh; the overlay variant is used here): raises
`ValueError` unless every element is an `EkoStandPart`, registers the
back-references, and immediately runs a full metrics refresh. The
Beech/Oak region warnings are non-fatal and not modelled. On this first
refresh the lazy `StandBA` property computes the live total. -/
def standInit (site : EkoStandSite) (elems : List StandElem) :
    Except String EkoStand :=
  if elems.all StandElem.isPart then
    let parts := elems.filterMap fun e =>
      match e with
      | .part p => some p
      | .nonpart => none
    .ok (assignMetricsRoot site (sumAll (fun p => p.BA) parts) parts)
  else
    .error "All StandParts must be EkoStandPart objects!"

/-! ## stand.py: thinning (identical in both modules) -/

/-- The per-cohort body of `EkoStand.thin`: the requested basal-area
removal for the cohort's species (0 when absent — the three
`key_variants` probes collapse to one lookup on the species tag), clamped
to `[0, BA]`; when the clamped removal and the stored QMD are both
positive, BA and stems are reduced at constant QMD. -/
def thinCohort (removals : Tradslag → Option ℝ) (p : EkoStandPart) :
    EkoStandPart :=
  let BA_out := max 0 (min ((removals p.tradslag).getD 0) p.BA)
  if 0 < BA_out ∧ 0 < p.QMD then
    { p with
        BA := p.BA - BA_out
        stems := max 0 (p.stems - BA_out / (Real.pi * (p.QMD / 200) ^ 2)) }
  else p

/-- `EkoStand.thin`: update every cohort, then refresh all metrics
(during which the lazy `StandBA` yields the value cached by the previous
refresh). -/
def thin (stand : EkoStand) (removals : Tradslag → Option ℝ) : EkoStand :=
  assignMetricsRoot stand.site stand.StandBA
    (stand.parts.map (thinCohort removals))

/-! ## Overlay module eko1985/stand.py: `EkoStand.grow`

The Python method runs array passes that write intermediate attributes
(`BA1`, `stems1`, `age2`, `QMD1`, `BA_Mortality`, `stems_Mortality`,
`HK1`, `VOL1`, `BA2`, `stems2`, `QMD2`, `HK2`, `VOL2`) onto each part.
Here the per-part attributes of the early passes are collected into a
record (`RootS1`), and the cross-cohort passes are functions over the
list of such records. -/

/-- The mortality quadruple used by `grow`: the species regression when
`apply_mortality`, otherwise zero fractions with default dying-tree
diameters `(0.9*QMD, QMD)` (overlay module lines 112-117). -/
def mortQuad (site : EkoStandSite) (p : EkoStandPart) (years : ℝ)
    (am : Bool) : ℝ × ℝ × ℝ × ℝ :=
  if am then getMortality site p years else (0, 0.9 * p.QMD, 0, p.QMD)

/-- Per-part attributes written by the first loop of the overlay `grow`
(gross increment, provisional end-of-period state, mortality removals). -/
structure RootS1 where
  p : EkoStandPart
  BAQ_crowd : ℝ
  QMD_dead_crowd : ℝ
  BAQ_other : ℝ
  QMD_dead_other : ℝ
  BAI5 : ℝ
  BA1 : ℝ
  stems1 : ℝ
  age2 : ℝ
  QMD1 : ℝ
  BA_Mortality : ℝ
  stems_Mortality : ℝ

/-- The first loop of the overlay `grow` (lines 111-138) for one part of
the refreshed start-of-period state. -/
def rootS1 (site : EkoStandSite) (years : ℝ) (am : Bool)
    (p : EkoStandPart) : RootS1 :=
  let m := mortQuad site p years am
  let BAQ_crowd := m.1
  let QMD_dead_crowd := m.2.1
  let BAQ_other := m.2.2.1
  let QMD_dead_other := m.2.2.2
  let BAI5 := getBAI5 site p BAQ_crowd BAQ_other
  let BA1 := p.BA + BAI5
  let stems1 := p.stems
  let age2 := p.age + years
  let so : ℝ × ℝ :=
    if 0 < p.QMD then
      (p.BA * BAQ_other / (Real.pi * (QMD_dead_other / 200) ^ 2),
        p.BA * BAQ_crowd / (Real.pi * (QMD_dead_crowd / 200) ^ 2))
    else (0, 0)
  { p := p
    BAQ_crowd := BAQ_crowd
    QMD_dead_crowd := QMD_dead_crowd
    BAQ_other := BAQ_other
    QMD_dead_other := QMD_dead_other
    BAI5 := BAI5
    BA1 := BA1
    stems1 := stems1
    age2 := age2
    QMD1 := qmd_cm BA1 stems1
    BA_Mortality := (BAQ_crowd + BAQ_other) * p.BA
    stems_Mortality := max 0 (so.1 + so.2) }

/-- `p.HK1` (overlay `grow`, pass 5a) for the record at index `i`. -/
def rootHK1 (s1 : List RootS1) (i : ℕ) (s : RootS1) : ℝ :=
  let BA_other := sumExcept (fun t => t.BA1) i 0 s1
  let N_other := sumExcept (fun t => t.stems1) i 0 s1
  qmd_cm BA_other N_other / (if 0 < s.QMD1 then s.QMD1 else 1e-9) * BA_other

/-- `p.BA2` (overlay `grow`, pass 5b): provisional BA minus the mortality
basal area, floored at 0. -/
def rootBA2 (s : RootS1) : ℝ := max 0 (s.BA1 - s.BA_Mortality)

/-- `p.stems2` (overlay `grow`, pass 5b). -/
def rootStems2 (s : RootS1) : ℝ := max 0 (s.stems1 - s.stems_Mortality)

/-- `p.HK2` (overlay `grow`, second competition pass) for index `i`. -/
def rootHK2 (s1 : List RootS1) (i : ℕ) (s : RootS1) : ℝ :=
  let BA_other := sumExcept (fun t => rootBA2 t) i 0 s1
  let N_other := sumExcept (fun t => rootStems2 t) i 0 s1
  qmd_cm BA_other N_other /
    (if 0 < qmd_cm (rootBA2 s) (rootStems2 s) then
      qmd_cm (rootBA2 s) (rootStems2 s) else 1e-9) * BA_other

/-- The state committed for one part by the overlay `grow` (line 169):
`p.BA, p.stems, p.QMD, p.age, p.VOL = p.BA2, p.stems2, p.QMD2, p.age2,
p.VOL2`. `standBA` is the stand total cached by the start-of-period
refresh. -/
def rootCommitPart (site : EkoStandSite) (standBA : ℝ) (s1 : List RootS1)
    (i : ℕ) (s : RootS1) : EkoStandPart :=
  { s.p with
      BA := rootBA2 s
      stems := rootStems2 s
      QMD := qmd_cm (rootBA2 s) (rootStems2 s)
      age := s.age2
      VOL := volume_for site standBA s.p.tradslag (rootBA2 s)
        (qmd_cm (rootBA2 s) (rootStems2 s)) s.age2 (rootStems2 s)
        (rootHK2 s1 i s) }

/-- The overlay `EkoStand.grow`: start-of-period refresh, per-part
pipeline, commit, final refresh. (The returned per-species summary
dictionary and the `VOL0`/`VOL1`/`gross_volume_increment` bookkeeping
carry no further state and are not modelled.) -/
def growRoot (stand : EkoStand) (years : ℝ) (am : Bool) : EkoStand :=
  let st0 := assignMetricsRoot stand.site stand.StandBA stand.parts
  let s1 := (st0.parts.map (rootS1 stand.site years am))
  let committed := mapFrom (rootCommitPart stand.site st0.StandBA s1) 0 s1
  assignMetricsRoot stand.site st0.StandBA committed

/-! ## Packaged module src/eko1985/stand.py: `EkoStand.grow`

This variant applies mortality and growth in one step
(`next_BA = (1 - q_total) * BA + BAI5`, `next_stems = (1 - q_total) *
stems`) and, when `apply_mortality` is false, returns the start state
unchanged (no increment, no aging). -/

/-- Per-part record of the packaged `grow`: mortality fractions, gross
increment, and the `next_state` entry (lines 141-184). -/
structure PkgS1 where
  p : EkoStandPart
  q_crowd : ℝ
  q_other : ℝ
  BAI5 : ℝ
  BA : ℝ
  stems : ℝ
  age : ℝ
  QMD : ℝ

/-- The mortality/increment/one-step-update loops of the packaged `grow`
for one part of the refreshed start state. -/
def pkgS1 (site : EkoStandSite) (years : ℝ) (am : Bool)
    (p : EkoStandPart) : PkgS1 :=
  let q : ℝ × ℝ :=
    if am then
      let m := getMortality site p years
      (m.1, m.2.2.1)
    else (0, 0)
  let BAI5 := getBAI5 site p q.1 q.2
  let q_total := q.1 + q.2
  let nextBA := if am then (1 - q_total) * p.BA + BAI5 else p.BA
  let nextStems := if am then (1 - q_total) * p.stems else p.stems
  let nextAge := if am then p.age + years else p.age
  { p := p
    q_crowd := q.1
    q_other := q.2
    BAI5 := BAI5
    BA := nextBA
    stems := nextStems
    age := nextAge
    QMD := qmd_cm nextBA nextStems }

/-- `HK_next` of the packaged `grow` (lines 186-192) for index `i`. -/
def pkgHK (s1 : List PkgS1) (i : ℕ) (s : PkgS1) : ℝ :=
  let BA_other := sumExcept (fun t => t.BA) i 0 s1
  let N_other := sumExcept (fun t => t.stems) i 0 s1
  qmd_cm BA_other N_other / (if 0 < s.QMD then s.QMD else 1e-9) * BA_other

/-- The state committed for one part by the packaged `grow`
(lines 205-217): BA, stems, QMD, age, HK and VOL from `next_state`
(volume through the unguarded `getVolume`). -/
def pkgCommitPart (site : EkoStandSite) (standBA : ℝ) (s1 : List PkgS1)
    (i : ℕ) (s : PkgS1) : EkoStandPart :=
  { s.p with
      BA := s.BA
      stems := s.stems
      QMD := s.QMD
      age := s.age
      HK := pkgHK s1 i s
      VOL := getVolume site standBA s.p.tradslag s.BA s.QMD s.age s.stems
        (pkgHK s1 i s) }

/-- The packaged `EkoStand.grow`. -/
def growPkg (stand : EkoStand) (years : ℝ) (am : Bool) : EkoStand :=
  let st0 := assignMetricsPkg stand.site stand.StandBA stand.parts
  let s1 := (st0.parts.map (pkgS1 stand.site years am))
  let committed := mapFrom (pkgCommitPart stand.site st0.StandBA s1) 0 s1
  assignMetricsPkg stand.site st0.StandBA committed

/-! ## Concrete instances used by witnesses and counterexamples -/

/-- A southern site: latitude 58, altitude 100 m, H100 24 m for both
conifers, mesic soil, no vegetation code, no silvicultural history. -/
def site0 : EkoStandSite :=
  { latitude := 58
    altitude := 100
    region := "South"
    H100_Pine := 24
    H100_Spruce := 24
    fertilised := false
    thinned_5y := false
    thinned := false
    TAX77 := false
    Bilberry_or_Cowberry := false
    HerbsGrassesNoFieldLayer := false
    DrySoil := false
    WetSoil := false
    vegcode := 0 }

/-- A spruce cohort: 20 m²/ha, 1200 stems/ha, 40 years. -/
def part0 : EkoStandPart := mkPart 20 1200 40 .GRAN

/-- `part0` after the packaged metrics refresh of its single-cohort
stand (the start-of-period state seen by `grow`). -/
def pref0 : EkoStandPart := refreshOnePkg site0 20 [part0] 0 part0

/-- An overstocked spruce cohort: 1000 m²/ha, 1000 stems/ha, 40 years
(far outside any physical range, but a legal input state). -/
def part1000 : EkoStandPart := mkPart 1000 1000 40 .GRAN

/-- `part1000` after the packaged metrics refresh of its single-cohort
stand. -/
def pref1000 : EkoStandPart := refreshOnePkg site0 1000 [part1000] 0 part1000

/-- A removal map requesting 5 m²/ha of spruce. -/
def rm0 : Tradslag → Option ℝ := fun t =>
  match t with
  | .GRAN => some 5
  | _ => none

/-- A degenerate spruce cohort: positive BA but zero stems, so its
stored QMD is 0. -/
def partQ0 : EkoStandPart := mkPart 20 0 40 .GRAN

/-- The stand holding `partQ0`, as built by `standInit`. -/
def standQ0 : EkoStand :=
  assignMetricsRoot site0 (sumAll (fun p => p.BA) [partQ0]) [partQ0]

/-- A cohort with zero basal area (degenerate for the volume guard). -/
def partDeg : EkoStandPart := mkPart 0 1200 40 .GRAN

/-! ## Helper lemmas -/

theorem clampCrowding_mem (c : ℝ) :
    0 ≤ clampCrowding c ∧ clampCrowding c ≤ 1 := by
  unfold clampCrowding
  split_ifs with h1 h2 <;> constructor <;> linarith

theorem qmd_cm_pos {BA stems : ℝ} (hBA : 0 < BA) (hst : 0 < stems) :
    0 < qmd_cm BA stems := by
  unfold qmd_cm
  rw [if_neg (by push_neg; exact ⟨hBA, hst⟩)]
  exact Real.sqrt_pos.mpr (by positivity)

theorem qmd_cm_of_pos {BA stems : ℝ} (hBA : 0 < BA) (hst : 0 < stems) :
    qmd_cm BA stems = Real.sqrt (BA * 40000 / (Real.pi * stems)) := by
  unfold qmd_cm
  rw [if_neg (by push_neg; exact ⟨hBA, hst⟩)]

/-- For a positive state, the basal area of one tree of the quadratic
mean diameter is `π (QMD/200)² = BA / stems`. -/
theorem pi_qmd_sq {BA stems : ℝ} (hBA : 0 < BA) (hst : 0 < stems) :
    Real.pi * (qmd_cm BA stems / 200) ^ 2 = BA / stems := by
  have hpi := Real.pi_pos
  rw [qmd_cm_of_pos hBA hst, div_pow, Real.sq_sqrt (by positivity)]
  field_simp
  ring

theorem logArg_pos (x : ℝ) : 0 < logArg x := by
  unfold logArg
  split_ifs with h
  · norm_num
  · linarith [not_le.mp h]

theorem log_of_pos {x : ℝ} (hx : 0 < x) : log x = Real.log x := by
  unfold log logArg
  rw [if_neg (not_le.mpr hx)]

set_option maxHeartbeats 1600000 in
/-- Every species' gross basal-area increment is `exp` of a regression,
hence strictly positive. -/
theorem getBAI5_pos (site : EkoStandSite) (p : EkoStandPart) (qc qa : ℝ) :
    0 < getBAI5 site p qc qa := by
  obtain ⟨BA, stems, age, t, q1, b1, q2, h2, v⟩ := p
  cases t <;>
    simp only [getBAI5, EkoSpruce_getBAI5, EkoPine_getBAI5,
      EkoBirch_getBAI5, EkoBroadleaf_getBAI5, EkoBeech_getBAI5,
      EkoOak_getBAI5] <;>
    first
      | exact Real.exp_pos _
      | (split_ifs <;> exact Real.exp_pos _)

set_option maxHeartbeats 1600000 in
/-- Every species' volume regression is `exp` of a regression, hence
strictly positive (in particular never exactly 0). -/
theorem getVolume_pos (site : EkoStandSite) (standBA : ℝ) (t : Tradslag)
    (BA QMD age stems HK : ℝ) :
    0 < getVolume site standBA t BA QMD age stems HK := by
  cases t <;>
    simp only [getVolume, EkoSpruce_getVolume, EkoPine_getVolume,
      EkoBirch_getVolume, EkoBroadleaf_getVolume, EkoBeech_getVolume,
      EkoOak_getVolume] <;>
    first
      | exact Real.exp_pos _
      | (split_ifs <;> exact Real.exp_pos _)

/-- Every species' `getMortality` reports the dying-tree diameters
`(0.9 * QMD, QMD)`. -/
theorem getMortality_diam (site : EkoStandSite) (p : EkoStandPart)
    (increment : ℝ) :
    (getMortality site p increment).2.1 = 0.9 * p.QMD ∧
      (getMortality site p increment).2.2.2 = p.QMD := by
  obtain ⟨BA, stems, age, t, q1, b1, q2, h2, v⟩ := p
  cases t <;>
    simp [getMortality, EkoSpruce_getMortality, EkoPine_getMortality,
      EkoBirch_getMortality, EkoBroadleaf_getMortality,
      EkoBeech_getMortality, EkoOak_getMortality]

/-- Mortality of the refreshed `part0` cohort: southern spruce at
BA = 20, stems = 1200 gives crowding fraction 0.000661644 and
other-causes fraction 0.0036. -/
theorem mort0 : getMortality site0 pref0 5 =
    (0.000661644, 0.9 * qmd_cm 20 1200, 0.0036, qmd_cm 20 1200) := by
  have hne : ((("South":String) = "North" ∨ ("South":String) = "Central")) =
      False := by simp
  show EkoSpruce_getMortality site0 pref0 5 = _
  unfold EkoSpruce_getMortality
  norm_num [show site0.region = "South" from rfl,
    show pref0.BA = (20:ℝ) from rfl, show pref0.stems = (1200:ℝ) from rfl,
    show pref0.QMD = qmd_cm 20 1200 from rfl, clampCrowding, min_def, hne]

/-- Mortality of the refreshed `part1000` cohort: the crowding regression
evaluates to ≈ 3.97 and is clamped to 1, so the total fraction is
1.0036 > 1. -/
theorem mort1000 : getMortality site0 pref1000 5 =
    (1, 0.9 * qmd_cm 1000 1000, 0.0036, qmd_cm 1000 1000) := by
  have hne : ((("South":String) = "North" ∨ ("South":String) = "Central")) =
      False := by simp
  show EkoSpruce_getMortality site0 pref1000 5 = _
  unfold EkoSpruce_getMortality
  norm_num [show site0.region = "South" from rfl,
    show pref1000.BA = (1000:ℝ) from rfl,
    show pref1000.stems = (1000:ℝ) from rfl,
    show pref1000.QMD = qmd_cm 1000 1000 from rfl, clampCrowding, min_def,
    hne]

theorem log1000_le : Real.log 1000 ≤ 7 := by
  have he : Real.exp 7 = Real.exp 1 ^ (7:ℕ) := by
    rw [← Real.exp_nat_mul]
    norm_num
  have hp : (2.7182818283:ℝ) ^ (7:ℕ) ≤ Real.exp 1 ^ (7:ℕ) :=
    pow_le_pow_left (by norm_num) Real.exp_one_gt_d9.le 7
  have h1000 : (1000:ℝ) ≤ Real.exp 7 := by
    rw [he]
    calc (1000:ℝ) ≤ (2.7182818283:ℝ) ^ (7:ℕ) := by norm_num
    _ ≤ _ := hp
  calc Real.log 1000 ≤ Real.log (Real.exp 7) :=
        Real.log_le_log (by norm_num) h1000
  _ = 7 := Real.log_exp 7

/-- At the overstocked state the spruce-South increment regression's
exponent is ≤ 0, so the gross increment is at most 1 m²/ha. -/
theorem bai1000_le : getBAI5 site0 pref1000 1 0.0036 ≤ 1 := by
  have hne : ((("South":String) = "North") : Prop) = False := by simp
  have hne2 : ((("South":String) = "Central") : Prop) = False := by simp
  have hM : 0 ≤ Real.log 40 := Real.log_nonneg (by norm_num)
  have hBAO : pref1000.BAOtherSpecies = 0 := by
    simp [pref1000, refreshOnePkg, competedPart, sumExcept]
  show EkoSpruce_getBAI5 site0 pref1000 1 0.0036 ≤ 1
  unfold EkoSpruce_getBAI5
  rw [show site0.region = "South" from rfl]
  norm_num [hne, hne2, show pref1000.BA = (1000:ℝ) from rfl,
    show pref1000.stems = (1000:ℝ) from rfl,
    show pref1000.age = (40:ℝ) from rfl, hBAO,
    show site0.H100_Spruce = (24:ℝ) from rfl,
    show site0.latitude = (58:ℝ) from rfl,
    show site0.vegcode = (0:ℝ) from rfl,
    show site0.thinned = false from rfl,
    show site0.thinned_5y = false from rfl,
    show site0.fertilised = false from rfl,
    show site0.DrySoil = false from rfl,
    show site0.TAX77 = false from rfl,
    pyBool, log_of_pos, Real.exp_le_one_iff]
  linarith [log1000_le, hM]

/-- C1, counterexample. On the single-spruce southern stand (BA = 20,
stems = 1200, age = 40) with mortality enabled, the stems committed by
the packaged `grow` — `(1 - q_total) * stems` — differ from the value
the claim prescribes, namely start stems minus the two mortality
basal-area shares converted separately through their assumed diameters
(acute at QMD, chronic at 0.9 QMD). The packaged implementation removes
1200·q_total ≈ 5.114 stems; the claimed conversion removes ≈ 5.300. -/
theorem C1_counterexample : (pkgS1 site0 5 true pref0).stems ≠
    pref0.stems -
      (pref0.BA * (getMortality site0 pref0 5).2.2.1 /
          (Real.pi * ((getMortality site0 pref0 5).2.2.2 / 200) ^ 2)
        + pref0.BA * (getMortality site0 pref0 5).1 /
          (Real.pi * ((getMortality site0 pref0 5).2.1 / 200) ^ 2)) := by
  have hq : Real.pi * (qmd_cm 20 1200 / 200) ^ 2 = 20 / 1200 :=
    pi_qmd_sq (by norm_num) (by norm_num)
  have h2 : Real.pi * (9 / 10 * qmd_cm 20 1200 / 200) ^ 2
      = 81 / 100 * (20 / 1200) := by
    have h3 : Real.pi * (9 / 10 * qmd_cm 20 1200 / 200) ^ 2
        = 81 / 100 * (Real.pi * (qmd_cm 20 1200 / 200) ^ 2) := by ring
    rw [h3, hq]
  rw [mort0]
  unfold pkgS1
  rw [mort0]
  norm_num [show pref0.BA = (20:ℝ) from rfl,
    show pref0.stems = (1200:ℝ) from rfl, hq]
  rw [h2]
  norm_num

/-- C2, counterexample. On the same concrete stand the committed basal
area of a `grow` call is `(1 - q_total) * startBA + increment`, which
exceeds the claimed `(1 - q_total) * (startBA + increment)` by exactly
`q_total * increment > 0` — a structural difference (mortality is not
applied to the increment), not a rounding artifact. Moreover at the
overstocked state `part1000` the crowding fraction clamps to 1, the
total fraction is 1.0036, and the packaged `grow` commits a *negative*
basal area (≈ -3.6 + increment, with increment ≤ 1), refuting the
claimed `≥ 0` as well. -/
theorem C2_counterexample :
    (pkgS1 site0 5 true pref0).BA
        - (1 - ((pkgS1 site0 5 true pref0).q_crowd
              + (pkgS1 site0 5 true pref0).q_other))
          * (pref0.BA + (pkgS1 site0 5 true pref0).BAI5)
      = ((pkgS1 site0 5 true pref0).q_crowd
            + (pkgS1 site0 5 true pref0).q_other)
          * (pkgS1 site0 5 true pref0).BAI5 ∧
    0 < ((pkgS1 site0 5 true pref0).q_crowd
          + (pkgS1 site0 5 true pref0).q_other)
        * (pkgS1 site0 5 true pref0).BAI5 ∧
    (pkgS1 site0 5 true pref0).BA
      ≠ (1 - ((pkgS1 site0 5 true pref0).q_crowd
            + (pkgS1 site0 5 true pref0).q_other))
          * (pref0.BA + (pkgS1 site0 5 true pref0).BAI5) ∧
    (pkgS1 site0 5 true pref1000).BA < 0 := by
  have hgap : (pkgS1 site0 5 true pref0).BA
      - (1 - ((pkgS1 site0 5 true pref0).q_crowd
            + (pkgS1 site0 5 true pref0).q_other))
        * (pref0.BA + (pkgS1 site0 5 true pref0).BAI5)
      = ((pkgS1 site0 5 true pref0).q_crowd
            + (pkgS1 site0 5 true pref0).q_other)
        * (pkgS1 site0 5 true pref0).BAI5 := by
    unfold pkgS1
    rw [mort0]
    norm_num [show pref0.BA = (20:ℝ) from rfl]
    ring
  have hpos : 0 < ((pkgS1 site0 5 true pref0).q_crowd
        + (pkgS1 site0 5 true pref0).q_other)
      * (pkgS1 site0 5 true pref0).BAI5 := by
    unfold pkgS1
    rw [mort0]
    norm_num
    exact getBAI5_pos _ _ _ _
  have hneg : (pkgS1 site0 5 true pref1000).BA < 0 := by
    unfold pkgS1
    rw [mort1000]
    norm_num [show pref1000.BA = (1000:ℝ) from rfl]
    linarith [bai1000_le]
  refine ⟨hgap, hpos, fun h => ?_, hneg⟩
  rw [h, sub_self] at hgap
  exact absurd hgap.symm (ne_of_gt hpos)

/-- C3, counterexample. A packaged `grow` call with `apply_mortality =
False` leaves BA, stems and age unchanged: the cohort's age stays 40
instead of advancing to 45, and the (positive) gross increment is not
applied, contradicting the claim for mortality-disabled calls. -/
theorem C3_counterexample :
    (pkgS1 site0 5 false pref0).age = 40 ∧
    (pkgS1 site0 5 false pref0).age ≠ pref0.age + 5 ∧
    (pkgS1 site0 5 false pref0).BA = pref0.BA ∧
    (pkgS1 site0 5 false pref0).BA
      ≠ pref0.BA + (pkgS1 site0 5 false pref0).BAI5 := by
  have hage : (pkgS1 site0 5 false pref0).age = 40 := by
    unfold pkgS1
    norm_num [show pref0.age = (40:ℝ) from rfl]
  have hBA : (pkgS1 site0 5 false pref0).BA = pref0.BA := by
    unfold pkgS1
    norm_num
  refine ⟨hage, ?_, hBA, fun h => ?_⟩
  · rw [hage, show pref0.age = (40:ℝ) from rfl]
    norm_num
  · rw [hBA] at h
    have hb := getBAI5_pos site0 pref0
      (pkgS1 site0 5 false pref0).q_crowd (pkgS1 site0 5 false pref0).q_other
    have hb5 : (pkgS1 site0 5 false pref0).BAI5
        = getBAI5 site0 pref0 0 0 := by
      unfold pkgS1
      norm_num
    rw [hb5] at h
    have := getBAI5_pos site0 pref0 0 0
    linarith

/-- C1 (amended). In the overlay implementation's `grow` with mortality
enabled, for every cohort: the mortality basal area equals
(chronic + acute fraction) × start-of-period BA; the assumed diameters
are 0.9 QMD (chronic) and QMD (acute); when the start QMD is positive the
removed stems are the two fractions' removed basal areas converted
separately through their assumed diameters and summed (0 when the start
QMD is not positive); and the committed BA and stems equal the
provisional values minus these removals, floored at 0. The packaged
implementation's `grow` instead commits stems = (1 − q_total) × start
stems — proportional removal with no per-diameter conversion. -/
theorem C1_amended (site : EkoStandSite) (years : ℝ) (p : EkoStandPart)
    (s1 : List RootS1) (i : ℕ) (sba : ℝ) :
    (rootS1 site years true p).BA_Mortality
        = ((getMortality site p years).1
            + (getMortality site p years).2.2.1) * p.BA ∧
    (rootS1 site years true p).QMD_dead_crowd = 0.9 * p.QMD ∧
    (rootS1 site years true p).QMD_dead_other = p.QMD ∧
    (0 < p.QMD →
      (rootS1 site years true p).stems_Mortality
        = max 0 (p.BA * (getMortality site p years).2.2.1 /
              (Real.pi * ((getMortality site p years).2.2.2 / 200) ^ 2)
            + p.BA * (getMortality site p years).1 /
              (Real.pi * ((getMortality site p years).2.1 / 200) ^ 2))) ∧
    (p.QMD ≤ 0 → (rootS1 site years true p).stems_Mortality = 0) ∧
    (rootCommitPart site sba s1 i (rootS1 site years true p)).BA
        = max 0 ((rootS1 site years true p).BA1
            - (rootS1 site years true p).BA_Mortality) ∧
    (rootCommitPart site sba s1 i (rootS1 site years true p)).stems
        = max 0 ((rootS1 site years true p).stems1
            - (rootS1 site years true p).stems_Mortality) ∧
    (pkgS1 site years true p).stems
        = (1 - ((getMortality site p years).1
            + (getMortality site p years).2.2.1)) * p.stems := by
  refine ⟨rfl, ?_, ?_, fun hq => ?_, fun hq => ?_, rfl, rfl, rfl⟩
  · exact (getMortality_diam site p years).1
  · exact (getMortality_diam site p years).2
  · simp only [rootS1, mortQuad, if_true]
    rw [if_pos hq]
  · simp only [rootS1, mortQuad, if_true]
    rw [if_neg (not_lt.mpr hq)]
    norm_num

/-- C1 witness: the separate-diameter stems conversion clause of the
amended claim, instantiated on the concrete southern spruce cohort. -/
theorem C1_amended_witness :
    0 < pref0.QMD ∧
    (rootS1 site0 5 true pref0).stems_Mortality
      = max 0 (pref0.BA * (getMortality site0 pref0 5).2.2.1 /
            (Real.pi * ((getMortality site0 pref0 5).2.2.2 / 200) ^ 2)
          + pref0.BA * (getMortality site0 pref0 5).1 /
            (Real.pi * ((getMortality site0 pref0 5).2.1 / 200) ^ 2)) :=
  have hq : 0 < pref0.QMD := by
    show 0 < qmd_cm 20 1200
    exact qmd_cm_pos (by norm_num) (by norm_num)
  ⟨hq, (C1_amended site0 5 pref0 [] 0 20).2.2.2.1 hq⟩

/-- C2 (amended). With mortality enabled, the basal area committed by
the overlay `grow` for a cohort equals
`max 0 ((1 − q_total) · startBA + increment)` — mortality is applied to
the start-of-period BA only, not to the increment — and is therefore
always ≥ 0. (The packaged `grow` commits the same value without the
floor, and can go negative when the clamped fractions sum above 1; see
the counterexample.) -/
theorem C2_amended (site : EkoStandSite) (years : ℝ) (p : EkoStandPart)
    (s1 : List RootS1) (i : ℕ) (sba : ℝ)
    (hinc : 0 < (rootS1 site years true p).BAI5) :
    (rootCommitPart site sba s1 i (rootS1 site years true p)).BA
        = max 0 ((1 - ((getMortality site p years).1
              + (getMortality site p years).2.2.1)) * p.BA
            + (rootS1 site years true p).BAI5) ∧
    0 ≤ (rootCommitPart site sba s1 i (rootS1 site years true p)).BA := by
  constructor
  · show max 0 ((rootS1 site years true p).BA1
        - (rootS1 site years true p).BA_Mortality) = _
    have h : (rootS1 site years true p).BA1
        - (rootS1 site years true p).BA_Mortality
        = (1 - ((getMortality site p years).1
            + (getMortality site p years).2.2.1)) * p.BA
          + (rootS1 site years true p).BAI5 := by
      show p.BA + (rootS1 site years true p).BAI5
          - ((getMortality site p years).1
              + (getMortality site p years).2.2.1) * p.BA = _
      ring
    rw [h]
  · exact le_max_left 0 _

/-- C2 witness: the amended claim at the concrete southern spruce
cohort (its increment is positive since every increment is `exp` of a
regression). -/
theorem C2_amended_witness :
    0 < (rootS1 site0 5 true pref0).BAI5 ∧
    0 ≤ (rootCommitPart site0 20 [] 0 (rootS1 site0 5 true pref0)).BA :=
  have hinc : 0 < (rootS1 site0 5 true pref0).BAI5 :=
    getBAI5_pos site0 pref0 (mortQuad site0 pref0 5 true).1
      (mortQuad site0 pref0 5 true).2.2.1
  ⟨hinc, (C2_amended site0 5 pref0 [] 0 20 hinc).2⟩

/-- C3 (amended). In the overlay implementation, for either value of
`apply_mortality`, the provisional state of every cohort is
`BA + increment`, unchanged stems, `age + years`, with QMD recomputed
from the provisional pair; disabling mortality only zeroes the two
fractions, and the start-of-period refresh never alters BA, stems or
age. In the packaged implementation, however, a `grow` call with
mortality disabled returns every cohort's BA, stems and age unchanged
(no increment, no aging). -/
theorem C3_amended (site : EkoStandSite) (years sba : ℝ) (am : Bool)
    (p : EkoStandPart) (parts : List EkoStandPart) (i : ℕ) :
    (rootS1 site years am p).BA1 = p.BA + (rootS1 site years am p).BAI5 ∧
    (rootS1 site years am p).stems1 = p.stems ∧
    (rootS1 site years am p).age2 = p.age + years ∧
    (rootS1 site years am p).QMD1
      = qmd_cm (rootS1 site years am p).BA1 (rootS1 site years am p).stems1 ∧
    (rootS1 site years false p).BAQ_crowd = 0 ∧
    (rootS1 site years false p).BAQ_other = 0 ∧
    (refreshOneRoot site sba parts i p).BA = p.BA ∧
    (refreshOneRoot site sba parts i p).stems = p.stems ∧
    (refreshOneRoot site sba parts i p).age = p.age ∧
    (pkgS1 site years false p).BA = p.BA ∧
    (pkgS1 site years false p).stems = p.stems ∧
    (pkgS1 site years false p).age = p.age :=
  ⟨rfl, rfl, rfl, rfl, rfl, rfl, rfl, rfl, rfl, rfl, rfl, rfl⟩

/-- C5. For every species, every region string and every input state
with non-negative BA, stems and age, both fractions returned by
`getMortality` — crowding and other-causes — lie in [0, 1]: the crowding
fraction is clamped explicitly, and the other-causes fraction is either
a fixed constant in (0, 1) or (northern/central spruce) an age-class
linear form bounded via AKL ∈ [1, 17]. -/
theorem C5_mortality_fractions_in_unit_interval (site : EkoStandSite)
    (p : EkoStandPart) (increment : ℝ) (hBA : 0 ≤ p.BA)
    (hstems : 0 ≤ p.stems) (hage : 0 ≤ p.age) :
    0 ≤ (getMortality site p increment).1 ∧
    (getMortality site p increment).1 ≤ 1 ∧
    0 ≤ (getMortality site p increment).2.2.1 ∧
    (getMortality site p increment).2.2.1 ≤ 1 := by
  obtain ⟨BA, stems, age, t, q1, b1, q2, h2, v⟩ := p
  simp only at hBA hstems hage
  have hp0 : (0:ℤ) ≤ pyInt age := by
    unfold pyInt
    rw [if_pos hage]
    exact Int.floor_nonneg.mpr hage
  have hfd : (0:ℤ) ≤ (pyInt age).fdiv 10 := Int.fdiv_nonneg hp0 (by norm_num)
  have hfdR : (0:ℝ) ≤ (((pyInt age).fdiv 10 : ℤ) : ℝ) := by exact_mod_cast hfd
  have h1R : (1:ℝ) ≤ ((((pyInt age).fdiv 10 : ℤ) : ℝ) + 1) ⊓ 17 :=
    le_min (by linarith) (by norm_num)
  have h17R : ((((pyInt age).fdiv 10 : ℤ) : ℝ) + 1) ⊓ 17 ≤ 17 :=
    min_le_right _ _
  cases t
  case GRAN =>
    simp only [getMortality, EkoSpruce_getMortality]
    split_ifs with hreg
    · refine ⟨(clampCrowding_mem _).1, (clampCrowding_mem _).2, ?_, ?_⟩
      · push_cast
        linarith
      · push_cast
        linarith
    · exact ⟨(clampCrowding_mem _).1, (clampCrowding_mem _).2, by norm_num,
        by norm_num⟩
  all_goals
    simp only [getMortality, EkoPine_getMortality, EkoBirch_getMortality,
      EkoBroadleaf_getMortality, EkoBeech_getMortality,
      EkoOak_getMortality] <;>
    split_ifs <;>
    exact ⟨(clampCrowding_mem _).1, (clampCrowding_mem _).2, by norm_num,
      by norm_num⟩

/-- C5 witness: the unit-interval bounds at the concrete southern spruce
cohort. -/
theorem C5_witness :
    (0 ≤ part0.BA ∧ 0 ≤ part0.stems ∧ 0 ≤ part0.age) ∧
    (0 ≤ (getMortality site0 part0 5).1 ∧
      (getMortality site0 part0 5).1 ≤ 1 ∧
      0 ≤ (getMortality site0 part0 5).2.2.1 ∧
      (getMortality site0 part0 5).2.2.1 ≤ 1) :=
  have h : 0 ≤ part0.BA ∧ 0 ≤ part0.stems ∧ 0 ≤ part0.age := by
    refine ⟨?_, ?_, ?_⟩ <;> norm_num [part0, mkPart]
  ⟨h, C5_mortality_fractions_in_unit_interval site0 part0 5 h.1 h.2.1 h.2.2⟩

/-- C4, counterexample. The species-level volume regression does not
return exactly 0 on a degenerate cohort: the packaged metrics refresh
feeds a zero-BA spruce cohort directly into `getVolume`, which still
returns `exp` of the clamped-log regression — a strictly positive
number. (Only the overlay's `_volume_for` wrapper returns exactly 0.) -/
theorem C4_counterexample :
    partDeg.BA ≤ 0 ∧ (refreshOnePkg site0 20 [partDeg] 0 partDeg).VOL ≠ 0 := by
  refine ⟨le_of_eq rfl, ?_⟩
  simp only [refreshOnePkg]
  exact ne_of_gt (getVolume_pos _ _ _ _ _ _ _ _)

/-- C4 (amended). The overlay stand's volume helper `_volume_for`
returns exactly 0 whenever BA ≤ 0 or stems ≤ 0, bypassing the
regression; the species regressions themselves (invoked directly by the
packaged metrics refresh) always return a strictly positive value; and
no logarithm can raise a domain error for any input, because the safe
`log` wrapper clamps every non-positive argument to the strictly
positive constant 1e-9 before taking the logarithm. -/
theorem C4_amended :
    (∀ (site : EkoStandSite) (standBA : ℝ) (t : Tradslag)
        (BA QMD age stems HK : ℝ),
      (BA ≤ 0 ∨ stems ≤ 0 →
        volume_for site standBA t BA QMD age stems HK = 0) ∧
      0 < getVolume site standBA t BA QMD age stems HK) ∧
    (∀ x : ℝ, 0 < logArg x ∧ (x ≤ 0 → logArg x = 1e-9) ∧
      log x = Real.log (logArg x)) := by
  constructor
  · intro site standBA t BA QMD age stems HK
    constructor
    · intro h
      unfold volume_for
      rw [if_pos h]
    · exact getVolume_pos site standBA t BA QMD age stems HK
  · intro x
    refine ⟨logArg_pos x, fun hx => ?_, rfl⟩
    unfold logArg
    rw [if_pos hx]

/-- C4 witness: the degenerate-input guard and the log clamp at concrete
inputs. -/
theorem C4_amended_witness :
    ((0:ℝ) ≤ 0 ∨ (1200:ℝ) ≤ 0) ∧
    volume_for site0 20 Tradslag.GRAN 0 0 40 1200 0 = 0 ∧
    ((-3:ℝ) ≤ 0 ∧ logArg (-3) = 1e-9) :=
  ⟨Or.inl le_rfl,
    (C4_amended.1 site0 20 Tradslag.GRAN 0 0 40 1200 0).1 (Or.inl le_rfl),
    by norm_num, (C4_amended.2 (-3)).2.1 (by norm_num)⟩

/-- C6, counterexample. A cohort whose species is in the removal map,
with a positive clamped removal (5 into [0, 20]), is left completely
unchanged by `thin` when its stored QMD is 0 (here: BA = 20 but
stems = 0): the committed stand BA stays 20 where the claim prescribes
15. -/
theorem C6_counterexample :
    rm0 partQ0.tradslag = some 5 ∧
    partQ0.BA = 20 ∧
    partQ0.QMD = 0 ∧
    (thinCohort rm0 partQ0).BA = 20 ∧
    (thin standQ0 rm0).StandBA = 20 ∧
    (20:ℝ) ≠ 20 - 5 := by
  have hq : partQ0.QMD = 0 := by
    show qmd_cm 20 0 = 0
    unfold qmd_cm
    rw [if_pos (Or.inr le_rfl)]
  have h1 : rm0 partQ0.tradslag = some 5 := rfl
  have h2 : partQ0.BA = 20 := rfl
  refine ⟨h1, h2, hq, ?_, ?_, by norm_num⟩
  · have hnc : ¬(0 < max 0 (min ((rm0 partQ0.tradslag).getD 0) partQ0.BA) ∧
        0 < partQ0.QMD) := by
      rw [hq]
      simp
    unfold thinCohort
    rw [if_neg hnc]
    exact h2
  · show (assignMetricsRoot site0 standQ0.StandBA
      (standQ0.parts.map (thinCohort rm0))).StandBA = 20
    have hthin : ∀ q : EkoStandPart, q.QMD = 0 → thinCohort rm0 q = q := by
      intro q h
      unfold thinCohort
      rw [if_neg]
      rw [h]
      simp
    simp only [standQ0, assignMetricsRoot, mapFrom, List.map, sumAll]
    rw [hthin _ (by simp [refreshOneRoot, competedPart, partQ0, mkPart,
      qmd_cm])]
    simp [refreshOneRoot, competedPart, partQ0, mkPart]

/-- C6 (amended). For every `thin` call and cohort: a species absent
from the removal map or a non-positive requested removal leaves the
cohort unchanged; a cohort whose stored QMD is non-positive is also left
unchanged (even for a positive request — this is the guard the original
claim misses); when the request, the cohort BA and the QMD are all
positive, the removal is clamped to [0, BA], stems are removed at
constant QMD as `BA_removed / (π (QMD/200)²)`, and the resulting BA and
stems are never negative. -/
theorem C6_amended (removals : Tradslag → Option ℝ) (p : EkoStandPart) :
    (removals p.tradslag = none → thinCohort removals p = p) ∧
    (∀ r, removals p.tradslag = some r → r ≤ 0 →
      thinCohort removals p = p) ∧
    (p.QMD ≤ 0 → thinCohort removals p = p) ∧
    (∀ r, removals p.tradslag = some r → 0 < r → 0 < p.BA → 0 < p.QMD →
      (thinCohort removals p).BA = p.BA - min r p.BA ∧
      (thinCohort removals p).stems
        = max 0 (p.stems - min r p.BA / (Real.pi * (p.QMD / 200) ^ 2))) ∧
    (0 ≤ p.BA → 0 ≤ (thinCohort removals p).BA) ∧
    (0 ≤ p.stems → 0 ≤ (thinCohort removals p).stems) := by
  refine ⟨?_, ?_, ?_, ?_, ?_, ?_⟩
  · intro h
    have hz : max 0 (min ((removals p.tradslag).getD 0) p.BA) = 0 := by
      rw [h]
      exact max_eq_left (min_le_left 0 p.BA)
    unfold thinCohort
    rw [if_neg]
    rw [hz]
    simp
  · intro r h hr
    have hz : max 0 (min ((removals p.tradslag).getD 0) p.BA) = 0 := by
      rw [h]
      exact max_eq_left (le_trans (min_le_left r p.BA) hr)
    unfold thinCohort
    rw [if_neg]
    rw [hz]
    simp
  · intro hq
    unfold thinCohort
    rw [if_neg]
    exact fun hc => absurd hc.2 (not_lt.mpr hq)
  · intro r h hr hBA hQ
    have hmax : max 0 (min ((removals p.tradslag).getD 0) p.BA)
        = min r p.BA := by
      rw [h]
      exact max_eq_right (le_min hr.le hBA.le)
    unfold thinCohort
    rw [if_pos]
    · constructor
      · simp only [hmax]
      · simp only [hmax]
    · rw [hmax]
      exact ⟨lt_min hr hBA, hQ⟩
  · intro hBA
    unfold thinCohort
    by_cases hq : 0 < max 0 (min ((removals p.tradslag).getD 0) p.BA) ∧
        0 < p.QMD
    · rw [if_pos hq]
      have hle : max 0 (min ((removals p.tradslag).getD 0) p.BA) ≤ p.BA :=
        max_le hBA (min_le_right _ _)
      show 0 ≤ p.BA - max 0 (min ((removals p.tradslag).getD 0) p.BA)
      linarith
    · rw [if_neg hq]
      exact hBA
  · intro hst
    unfold thinCohort
    by_cases hq : 0 < max 0 (min ((removals p.tradslag).getD 0) p.BA) ∧
        0 < p.QMD
    · rw [if_pos hq]
      exact le_max_left 0 _
    · rw [if_neg hq]
      exact hst

/-- C6 witness: the positive-removal clause on the concrete spruce
cohort (BA = 20, stems = 1200, removal 5). -/
theorem C6_amended_witness :
    (rm0 part0.tradslag = some 5 ∧ (0:ℝ) < 5 ∧ 0 < part0.BA ∧
      0 < part0.QMD) ∧
    (thinCohort rm0 part0).BA = part0.BA - min 5 part0.BA ∧
    (thinCohort rm0 part0).stems
      = max 0 (part0.stems - min 5 part0.BA /
          (Real.pi * (part0.QMD / 200) ^ 2)) :=
  have hQ : 0 < part0.QMD := by
    show 0 < qmd_cm 20 1200
    exact qmd_cm_pos (by norm_num) (by norm_num)
  have hBA : 0 < part0.BA := by norm_num [part0, mkPart]
  ⟨⟨rfl, by norm_num, hBA, hQ⟩,
    (C6_amended rm0 part0).2.2.2.1 5 rfl (by norm_num) hBA hQ⟩

/-- C8. `qmd_cm` returns `sqrt(BA · 40000 / (π · stems))` for positive
inputs and exactly 0 when BA ≤ 0 or stems ≤ 0; as a total function of
two reals it never fails. -/
theorem C8_qmd (BA stems : ℝ) :
    (0 < BA → 0 < stems →
      qmd_cm BA stems = Real.sqrt (BA * 40000 / (Real.pi * stems))) ∧
    (BA ≤ 0 ∨ stems ≤ 0 → qmd_cm BA stems = 0) := by
  constructor
  · intro h1 h2
    exact qmd_cm_of_pos h1 h2
  · intro h
    unfold qmd_cm
    rw [if_pos h]

/-- C8 witness: both branches at concrete inputs. -/
theorem C8_qmd_witness :
    ((0:ℝ) < 20 ∧
      qmd_cm 20 1200 = Real.sqrt (20 * 40000 / (Real.pi * 1200))) ∧
    ((0:ℝ) ≤ 0 ∧ qmd_cm 0 1200 = 0) :=
  ⟨⟨by norm_num, (C8_qmd 20 1200).1 (by norm_num) (by norm_num)⟩,
    ⟨le_rfl, (C8_qmd 0 1200).2 (Or.inl le_rfl)⟩⟩

/-- C9. Round-trip: thinning a cohort (whose stored QMD is the one
derived from its BA and stems) by a basal-area amount strictly between 0
and its BA, with stems removed by the constant-QMD conversion, and then
recomputing QMD from the post-thinning (BA, stems), returns exactly the
original QMD (exact equality in real arithmetic, hence within any
floating tolerance). -/
theorem C9_thin_qmd_roundtrip (removals : Tradslag → Option ℝ)
    (p : EkoStandPart) (r : ℝ)
    (hQ : p.QMD = qmd_cm p.BA p.stems) (hQpos : 0 < p.QMD)
    (hstems : 0 < p.stems) (hr : removals p.tradslag = some r)
    (hr0 : 0 < r) (hrBA : r < p.BA) :
    qmd_cm (thinCohort removals p).BA (thinCohort removals p).stems
      = p.QMD := by
  have hBA : 0 < p.BA := lt_trans hr0 hrBA
  have hpi : Real.pi * (p.QMD / 200) ^ 2 = p.BA / p.stems := by
    rw [hQ]
    exact pi_qmd_sq hBA hstems
  have hmax : max 0 (min ((removals p.tradslag).getD 0) p.BA) = r := by
    rw [hr]
    show max 0 (min r p.BA) = r
    rw [min_eq_left hrBA.le]
    exact max_eq_right hr0.le
  have hBAth : (thinCohort removals p).BA = p.BA - r := by
    unfold thinCohort
    rw [if_pos (by rw [hmax]; exact ⟨hr0, hQpos⟩)]
    show p.BA - max 0 (min ((removals p.tradslag).getD 0) p.BA) = p.BA - r
    rw [hmax]
  have hstout : r / (Real.pi * (p.QMD / 200) ^ 2) = r * p.stems / p.BA := by
    rw [hpi]
    field_simp
  have hstth : (thinCohort removals p).stems
      = p.stems * (p.BA - r) / p.BA := by
    unfold thinCohort
    rw [if_pos (by rw [hmax]; exact ⟨hr0, hQpos⟩)]
    show max 0 (p.stems - max 0 (min ((removals p.tradslag).getD 0) p.BA) /
        (Real.pi * (p.QMD / 200) ^ 2)) = _
    rw [hmax, hstout]
    rw [max_eq_right]
    · field_simp
      ring
    · have h1 : r * p.stems / p.BA < p.stems := by
        rw [div_lt_iff hBA]
        nlinarith
      linarith
  rw [hBAth, hstth, hQ]
  have hstemsp : 0 < p.stems * (p.BA - r) / p.BA :=
    div_pos (mul_pos hstems (by linarith)) hBA
  rw [qmd_cm_of_pos (by linarith) hstemsp, qmd_cm_of_pos hBA hstems]
  congr 1
  rw [div_eq_div_iff (by positivity) (by positivity)]
  field_simp
  ring

/-- C9 witness: the round-trip at the concrete spruce cohort thinned by
5 of 20 m²/ha. -/
theorem C9_thin_qmd_roundtrip_witness :
    (part0.QMD = qmd_cm part0.BA part0.stems ∧ 0 < part0.QMD ∧
      0 < part0.stems ∧ rm0 part0.tradslag = some 5 ∧ (0:ℝ) < 5 ∧
      (5:ℝ) < part0.BA) ∧
    qmd_cm (thinCohort rm0 part0).BA (thinCohort rm0 part0).stems
      = part0.QMD :=
  have hQ : 0 < part0.QMD := by
    show 0 < qmd_cm 20 1200
    exact qmd_cm_pos (by norm_num) (by norm_num)
  have h5 : (5:ℝ) < part0.BA := by norm_num [part0, mkPart]
  have hst : (0:ℝ) < part0.stems := by norm_num [part0, mkPart]
  ⟨⟨rfl, hQ, hst, rfl, by norm_num, h5⟩,
    C9_thin_qmd_roundtrip rm0 part0 5 rfl hQ hst rfl (by norm_num) h5⟩

theorem siteH100_pine_ok (hp : ℝ) (h : 0 < hp) :
    siteH100 none (some hp)
      = .ok (Real.exp (-0.9596 * Real.log (hp * 10) +
          0.01171 * (hp * 10) + 7.9209) / 10, hp) := by
  simp only [siteH100, Leijon_Pine_to_Spruce]
  rw [if_neg (not_le.mpr (by linarith : (0:ℝ) < hp * 10))]
  rfl

theorem siteH100_pine_err (hp : ℝ) (h : hp ≤ 0) :
    siteH100 none (some hp) = .error "math domain error" := by
  simp only [siteH100, Leijon_Pine_to_Spruce]
  rw [if_pos (by linarith : hp * 10 ≤ 0)]
  rfl

theorem siteH100_spruce_err (hs : ℝ) (h : hs ≤ 0) :
    siteH100 (some hs) none = .error "math domain error" := by
  simp only [siteH100, Leijon_Spruce_to_Pine]
  rw [if_pos (by linarith : hs * 10 ≤ 0)]
  rfl

theorem siteH100_spruce_ok (hs : ℝ) (h : 0 < hs) :
    siteH100 (some hs) none
      = .ok (hs, Real.exp (1.6967 * Real.log (hs * 10) -
          0.005179 * (hs * 10) - 2.5397) / 10) := by
  simp only [siteH100, Leijon_Spruce_to_Pine]
  rw [if_neg (not_le.mpr (by linarith : (0:ℝ) < hs * 10))]
  rfl

theorem all_map_part (parts : List EkoStandPart) :
    (parts.map StandElem.part).all StandElem.isPart = true := by
  induction parts with
  | nil => rfl
  | cons a t ih => simp [StandElem.isPart, ih]

theorem filterMap_map_part (parts : List EkoStandPart) :
    (parts.map StandElem.part).filterMap (fun e =>
      match e with
      | .part p => some p
      | .nonpart => none) = parts := by
  induction parts with
  | nil => rfl
  | cons a t ih => simp [List.filterMap_cons, ih]

/-- C7, counterexample. Constructing a stand from an *empty* cohort
collection does not fail: `all()` over an empty collection is true, so
`EkoStand.__init__` accepts it and performs the (vacuous) metrics
refresh. -/
theorem C7_counterexample :
    standInit site0 [] = .ok
      { site := site0, parts := [], StandBA := 0, StandStems := 0,
        StandVOL := 0 } := rfl

/-- C7 (amended). Construction fails with a fatal error in exactly
these cases: a Site with neither H100 supplied, a Site whose single
supplied H100 is non-positive (the Leijon conversion takes a plain
logarithm of `10 × H100`), and a Stand whose collection contains a
non-cohort element. An *empty* cohort collection is accepted. In the
non-failing cases construction succeeds, and a Stand is returned with
the full metrics refresh already applied. -/
theorem C7_amended :
    (∀ (lat alt : ℝ) (veg sm : Option ℤ) (reg : Option RegionInput)
        (f t5 t tax : Bool),
      siteInit lat alt veg sm none none reg f t5 t tax
        = .error
          "At least one of h100_gran or h100_tall must be provided.") ∧
    (∀ (lat alt : ℝ) (veg sm : Option ℤ) (reg : Option RegionInput)
        (f t5 t tax : Bool) (hp : ℝ), 0 < hp →
      ∃ s, siteInit lat alt veg sm none (some hp) reg f t5 t tax
        = .ok s) ∧
    (∀ (lat alt : ℝ) (veg sm : Option ℤ) (reg : Option RegionInput)
        (f t5 t tax : Bool) (hp : ℝ), hp ≤ 0 →
      siteInit lat alt veg sm none (some hp) reg f t5 t tax
        = .error "math domain error") ∧
    (∀ (lat alt : ℝ) (veg sm : Option ℤ) (reg : Option RegionInput)
        (f t5 t tax : Bool) (hs : ℝ), 0 < hs →
      ∃ s, siteInit lat alt veg sm (some hs) none reg f t5 t tax
        = .ok s) ∧
    (∀ (lat alt : ℝ) (veg sm : Option ℤ) (reg : Option RegionInput)
        (f t5 t tax : Bool) (hs : ℝ), hs ≤ 0 →
      siteInit lat alt veg sm (some hs) none reg f t5 t tax
        = .error "math domain error") ∧
    (∀ (lat alt : ℝ) (veg sm : Option ℤ) (reg : Option RegionInput)
        (f t5 t tax : Bool) (hs hp : ℝ),
      ∃ s, siteInit lat alt veg sm (some hs) (some hp) reg f t5 t tax
        = .ok s) ∧
    (∀ (site : EkoStandSite) (elems : List StandElem),
      StandElem.nonpart ∈ elems →
      standInit site elems
        = .error "All StandParts must be EkoStandPart objects!") ∧
    (∀ (site : EkoStandSite) (parts : List EkoStandPart),
      standInit site (parts.map StandElem.part)
        = .ok (assignMetricsRoot site (sumAll (fun p => p.BA) parts)
            parts)) := by
  refine ⟨fun _ _ _ _ _ _ _ _ _ => rfl, ?_, ?_, ?_, ?_, ?_, ?_, ?_⟩
  · intro lat alt veg sm reg f t5 t tax hp h
    unfold siteInit
    rw [siteH100_pine_ok hp h]
    exact ⟨_, rfl⟩
  · intro lat alt veg sm reg f t5 t tax hp h
    unfold siteInit
    rw [siteH100_pine_err hp h]
    rfl
  · intro lat alt veg sm reg f t5 t tax hs h
    unfold siteInit
    rw [siteH100_spruce_ok hs h]
    exact ⟨_, rfl⟩
  · intro lat alt veg sm reg f t5 t tax hs h
    unfold siteInit
    rw [siteH100_spruce_err hs h]
    rfl
  · intro lat alt veg sm reg f t5 t tax hs hp
    exact ⟨_, rfl⟩
  · intro site elems h
    have hall : elems.all StandElem.isPart = false := by
      rw [List.all_eq_false]
      exact ⟨.nonpart, h, by simp [StandElem.isPart]⟩
    unfold standInit
    rw [hall]
    rfl
  · intro site parts
    unfold standInit
    rw [all_map_part parts, if_pos rfl, filterMap_map_part parts]

/-- C7 witness: the site construction from a single positive pine index
succeeds, one from a single non-positive pine index fails with the
log-domain error, and a collection containing a non-cohort element is
rejected. -/
theorem C7_amended_witness :
    (0:ℝ) < 28 ∧
    (∃ s, siteInit 58 100 none none none (some 28) none
        false false false false = .ok s) ∧
    ((-5:ℝ) ≤ 0 ∧
      siteInit 58 100 none none none (some (-5)) none
        false false false false = .error "math domain error") ∧
    (StandElem.nonpart ∈ [StandElem.nonpart] ∧
      standInit site0 [StandElem.nonpart]
        = .error "All StandParts must be EkoStandPart objects!") :=
  ⟨by norm_num,
    C7_amended.2.1 58 100 none none none false false false false 28
      (by norm_num),
    ⟨by norm_num,
      C7_amended.2.2.1 58 100 none none none false false false false (-5)
        (by norm_num)⟩,
    List.mem_singleton.mpr rfl,
    C7_amended.2.2.2.2.2.2.1 site0 [StandElem.nonpart]
      (List.mem_singleton.mpr rfl)⟩

set_option maxHeartbeats 1600000 in
theorem region_fallthrough_mortality (site : EkoStandSite) (s : String)
    (h1 : s ≠ "North") (h2 : s ≠ "Central") (p : EkoStandPart) (inc : ℝ) :
    getMortality (site.withRegion s) p inc
      = getMortality (site.withRegion "South") p inc := by
  obtain ⟨BA, stems, age, t, q1, b1, q2, hh2, v⟩ := p
  cases t <;>
    simp [getMortality, EkoSpruce_getMortality, EkoPine_getMortality,
      EkoBirch_getMortality, EkoBroadleaf_getMortality,
      EkoBeech_getMortality, EkoOak_getMortality,
      EkoStandSite.withRegion, h1, h2]

set_option maxHeartbeats 3200000 in
theorem region_fallthrough_bai5 (site : EkoStandSite) (s : String)
    (h1 : s ≠ "North") (h2 : s ≠ "Central") (p : EkoStandPart)
    (qc qa : ℝ) :
    getBAI5 (site.withRegion s) p qc qa
      = getBAI5 (site.withRegion "South") p qc qa := by
  obtain ⟨BA, stems, age, t, q1, b1, q2, hh2, v⟩ := p
  cases t <;>
    simp [getBAI5, EkoSpruce_getBAI5, EkoPine_getBAI5, EkoBirch_getBAI5,
      EkoBroadleaf_getBAI5, EkoBeech_getBAI5, EkoOak_getBAI5,
      EkoStandSite.withRegion, h1, h2]

set_option maxHeartbeats 3200000 in
theorem region_fallthrough_volume (site : EkoStandSite) (s : String)
    (h1 : s ≠ "North") (h2 : s ≠ "Central") (standBA : ℝ) (t : Tradslag)
    (BA QMD age stems HK : ℝ) :
    getVolume (site.withRegion s) standBA t BA QMD age stems HK
      = getVolume (site.withRegion "South") standBA t BA QMD age stems
          HK := by
  cases t <;>
    simp [getVolume, EkoSpruce_getVolume, EkoPine_getVolume,
      EkoBirch_getVolume, EkoBroadleaf_getVolume, EkoBeech_getVolume,
      EkoOak_getVolume, EkoStandSite.withRegion, h1, h2]

/-- C10. Constructing a site with no region argument stores `"South"`;
a region string outside the recognized English and Swedish names is
stored verbatim rather than rejected; and every downstream region
branch — mortality, increment and volume, for every species — treats
any region other than `"North"`/`"Central"` exactly as `"South"`, since
the southern branch is the fall-through `else` of every species
formula. -/
theorem C10_region_default_and_fallthrough :
    regionNormalize none = "South" ∧
    (∀ s : String, s ≠ "North" → s ≠ "Central" → s ≠ "South" →
      s ≠ "NORRA" → s ≠ "MELLERSTA" → s ≠ "SÖDRA" →
      regionNormalize (some (RegionInput.str s)) = s) ∧
    (∀ (site : EkoStandSite) (s : String), s ≠ "North" → s ≠ "Central" →
      (∀ (p : EkoStandPart) (inc : ℝ),
        getMortality (site.withRegion s) p inc
          = getMortality (site.withRegion "South") p inc) ∧
      (∀ (p : EkoStandPart) (qc qa : ℝ),
        getBAI5 (site.withRegion s) p qc qa
          = getBAI5 (site.withRegion "South") p qc qa) ∧
      (∀ (standBA : ℝ) (t : Tradslag) (BA QMD age stems HK : ℝ),
        getVolume (site.withRegion s) standBA t BA QMD age stems HK
          = getVolume (site.withRegion "South") standBA t BA QMD age
              stems HK)) := by
  refine ⟨rfl, ?_, ?_⟩
  · intro s h1 h2 h3 h4 h5 h6
    simp [regionNormalize, h1, h2, h3, h4, h5, h6]
  · intro site s h1 h2
    exact ⟨region_fallthrough_mortality site s h1 h2,
      region_fallthrough_bai5 site s h1 h2,
      region_fallthrough_volume site s h1 h2⟩

/-- C10 witness: the unrecognized region string "Svealand" is stored
verbatim and behaves as the southern branch of the concrete spruce
mortality call. -/
theorem C10_witness :
    regionNormalize (some (RegionInput.str "Svealand")) = "Svealand" ∧
    getMortality (site0.withRegion "Svealand") part0 5
      = getMortality (site0.withRegion "South") part0 5 :=
  ⟨C10_region_default_and_fallthrough.2.1 "Svealand" (by decide)
      (by decide) (by decide) (by decide) (by decide) (by decide),
    (C10_region_default_and_fallthrough.2.2 site0 "Svealand" (by decide)
      (by decide)).1 part0 5⟩

end Eko1985
